import Mathlib

/-!
# Presenter coordination layer of the trip dashboard

Shallow embedding of `src/presenter/events-presenter.js` (class `EventsPresenter`, the list
coordinator and its action dispatch) and `src/presenter/waypoint-presenter.js` (class
`WaypointPresenter`, the per-item view/edit state machine).

Conventions of the embedding.

* Private fields of a class instance are the fields of a structure; a method is a function
  from the state before the call to the state after it.
* JavaScript exceptions are explicit: a method that can throw returns an `Outcome`, the state
  reached when control left the method together with the exception thrown, if any. Mutations
  made before the throw are kept, as they are in JavaScript.
* Every call into a collaborator that is not part of the two classes (the rendering primitives
  `render`/`replace`/`remove`, the UI blocker, the mutating store operations) is appended to
  `World.log` with its arguments, in program order. The rendering primitives are treated as
  total operations on opaque nodes.
* `document` keydown listeners are the set of presenter identities whose `#onEscKeydown` is
  installed; a presenter identity (`uid`) is allocated at construction.
* The absent modules (`const.js`, `utils/waypoints.js`, `utils/filter.js`, the store and the
  filter-state holder) enter as parameters: `Utils` and `TripModel` carry the functions the two
  classes import or call.
-/

namespace BigTrip

/-! ## Enumerations (`const.js`) -/

/-- Mode of an item presenter. -/
inductive Mode
  | DEFAULT
  | EDITING
deriving DecidableEq

/-- Sort order of the visible projection. -/
inductive SortType
  | DAY
  | TIME
  | PRICE
deriving DecidableEq

/-- Modelled from the spec: `const.js` is absent; the source names `FilterType.EVERYTHING` and
the spec names a `Favorites` filter. -/
inductive FilterType
  | EVERYTHING
  | FAVORITES
deriving DecidableEq

/-- Notification tag emitted by the store. -/
inductive UpdateType
  | PATCH
  | MINOR
  | MAJOR
  | INIT
  | ERROR
deriving DecidableEq

/-- Kind of a user-triggered mutation. -/
inductive UserAction
  | UPDATE_WAYPOINT
  | ADD_WAYPOINT
  | DELETE_WAYPOINT
deriving DecidableEq

/-- Mode of the creation button. -/
inductive NewWaypointButtonMode
  | ENABLED
  | DISABLED
deriving DecidableEq

/-- Exception values: a `TypeError` (call of `undefined`, property read of `undefined`) and the
rejection of a store operation. -/
inductive JsError
  | typeError
  | rejection
deriving DecidableEq

/-! ## Data model -/

/-- One itinerary entry. The two classes read `id`, `type`, `destination` and `isFavorite`;
the remaining fields are the ones the spec lists. -/
structure Waypoint where
  id : Nat
  type : String
  destination : Nat
  dateFrom : Nat
  dateTo : Nat
  basePrice : Nat
  offers : List Nat
  isFavorite : Bool
deriving DecidableEq

/-- Reference data: a destination. -/
structure Destination where
  id : Nat
  name : String
  description : String
deriving DecidableEq

/-- Reference data: an optional add-on. -/
structure Offer where
  id : Nat
  title : String
  price : Nat
deriving DecidableEq

/-- The store as the coordinator reads it: `waypoints`, `destinations`, `getDestinationById`
and `getOffersByType`. A lookup that finds nothing yields `undefined` (`none`). -/
structure TripModel where
  waypoints : List Waypoint
  destinations : List Destination
  getDestinationById : Nat → Option Destination
  getOffersByType : String → List Offer

/-- The functions imported from `utils/filter.js` and `utils/waypoints.js`, which are absent:
the filter table, the three sort comparators and the trip-summary helpers. -/
structure Utils where
  filter : FilterType → List Waypoint → List Waypoint
  sortByTime : Waypoint → Waypoint → Int
  sortByPrice : Waypoint → Waypoint → Int
  sortByDate : Waypoint → Waypoint → Int
  getTripRouteIds : List Waypoint → List Nat
  getTripDuration : List Waypoint → Nat
  getTotalBasePrice : List Waypoint → Nat
  getWaypointAddOptionalPrice : Waypoint → List Offer → Nat

/-! ## Views and the call log -/

/-- Construction data of a `WaypointView`. -/
structure WaypointView where
  point : Waypoint
  offers : List Offer
  destination : Option Destination
deriving DecidableEq

/-- Construction data of an `EditWaypointView`. -/
structure EditWaypointView where
  point : Waypoint
  offers : List Offer
  destination : Option Destination
  destinationsList : List Destination
deriving DecidableEq

/-- Construction data of a `TripInfoView`. -/
structure TripInfoView where
  tripRoute : List String
  tripDuration : Nat
  totalCost : Nat
deriving DecidableEq

/-- An opaque view node handed to a rendering primitive. Item views carry the identity of the
presenter that built them. -/
inductive Node
  | waypoint (uid : Nat) (view : WaypointView)
  | editForm (uid : Nat) (view : EditWaypointView)
  | sorting (currentSort : SortType)
  | noWaypoints (filterType : FilterType)
  | newWaypointButton (mode : NewWaypointButtonMode)
  | tripInfo (view : TripInfoView)
  | newWaypointForm
  | eventsList
  | loading
  | errorLoading
deriving DecidableEq

/-- A call into a collaborator. A `null` component argument is `none`. -/
inductive Call
  | render (node : Option Node)
  | replace (newNode oldNode : Option Node)
  | remove (node : Option Node)
  | block
  | unblock
  | updateWaypoint (updateType : UpdateType) (update : Waypoint)
  | addWaypoint (updateType : UpdateType) (update : Waypoint)
  | deleteWaypoint (updateType : UpdateType) (update : Waypoint)
  | setFilter (updateType : UpdateType) (filterType : FilterType)
deriving DecidableEq

/-- What lies outside the presenters: the keydown listeners installed on `document` (by
presenter identity), the log of collaborator calls, and the next free presenter identity. -/
structure World where
  keydownListeners : List Nat
  log : List Call
  nextUid : Nat

/-- Append one call to the log. -/
def World.call (w : World) (c : Call) : World :=
  { w with log := w.log ++ [c] }

/-- The effect of `document.addEventListener('keydown', h)`: a listener that is already
installed is not installed twice. -/
def World.addEventListener (w : World) (uid : Nat) : World :=
  if uid ∈ w.keydownListeners then w
  else { w with keydownListeners := w.keydownListeners ++ [uid] }

/-- The effect of `document.removeEventListener('keydown', h)`. -/
def World.removeEventListener (w : World) (uid : Nat) : World :=
  { w with keydownListeners := w.keydownListeners.filter (fun u => u != uid) }

/-! ## `Map` and `Array.prototype.sort` -/

/-- The value stored under a key: `Map.prototype.get`. -/
def Map.get {α : Type} : List (Nat × α) → Nat → Option α
  | [], _ => none
  | (k, v) :: m, key => if k = key then some v else Map.get m key

/-- Store a value under a key: `Map.prototype.set`. An existing key keeps its position. -/
def Map.set {α : Type} : List (Nat × α) → Nat → α → List (Nat × α)
  | [], key, value => [(key, value)]
  | (k, v) :: m, key, value =>
    if k = key then (k, value) :: m else (k, v) :: Map.set m key value

/-- Insert an element into a list ordered by the comparator, after every element that must
precede it and before the first element it does not follow. -/
def orderedInsert (compare : Waypoint → Waypoint → Int) (x : Waypoint) :
    List Waypoint → List Waypoint
  | [] => [x]
  | y :: ys =>
    if compare x y ≤ 0 then x :: y :: ys else y :: orderedInsert compare x ys

/-- The result of `Array.prototype.sort(compare)`, a stable sort. -/
def sort (compare : Waypoint → Waypoint → Int) (l : List Waypoint) : List Waypoint :=
  l.foldr (orderedInsert compare) []

/-! ## `WaypointPresenter` (`waypoint-presenter.js`) -/

/-- The callbacks of the coordinator that are handed to presenters. -/
inductive Handler
  | handleViewAction
  | resetWaypointsMode
  | handleDestinationUpdate
  | handleOffersUpdate
deriving DecidableEq

/-- Property names of the options object of the `WaypointPresenter` constructor, as written by
the caller (`EventsPresenter.#renderWaypoint`) and as read by the constructor. -/
inductive OptionKey
  | eventsListComponent
  | updateWaypointsData
  | handleWaypointsDataUpdate
  | resetWaypointsMode
  | handleDestinationUpdate
  | handleOffersUpdate
deriving DecidableEq

/-- A property value of the options object. -/
inductive OptionValue
  | element
  | handler (h : Handler)
deriving DecidableEq

/-- An options object literal. -/
abbrev Options := List (OptionKey × OptionValue)

/-- Read a property of an options object; an absent property is `undefined`. -/
def Options.read : Options → OptionKey → Option OptionValue
  | [], _ => none
  | (k, v) :: o, key => if k = key then some v else Options.read o key

/-- Read a property that is used as a function. -/
def Options.readHandler (o : Options) (key : OptionKey) : Option Handler :=
  match Options.read o key with
  | some (OptionValue.handler h) => some h
  | _ => none

/-- The argument of `WaypointPresenter.init`. -/
structure InitArgs where
  point : Waypoint
  destinationsList : List Destination
  destination : Option Destination
  offersList : List Offer
deriving DecidableEq

/-- State of one `WaypointPresenter` instance: its private fields, and its identity. -/
structure WaypointPresenter where
  uid : Nat
  eventsListComponent : Option OptionValue
  waypointComponent : Option WaypointView
  waypointEditComponent : Option EditWaypointView
  resetWaypointsMode : Option Handler
  point : Option Waypoint
  destinationsList : Option (List Destination)
  destination : Option Destination
  offersList : Option (List Offer)
  updateWaypointsData : Option Handler
  mode : Mode
deriving DecidableEq

namespace WaypointPresenter

/-- The constructor: destructures `eventsListComponent`, `updateWaypointsData` and
`resetWaypointsMode` from its argument; every other field keeps its initialiser. -/
def create (uid : Nat) (options : Options) : WaypointPresenter :=
  { uid := uid
    eventsListComponent := Options.read options OptionKey.eventsListComponent
    waypointComponent := none
    waypointEditComponent := none
    resetWaypointsMode := Options.readHandler options OptionKey.resetWaypointsMode
    point := none
    destinationsList := none
    destination := none
    offersList := none
    updateWaypointsData := Options.readHandler options OptionKey.updateWaypointsData
    mode := Mode.DEFAULT }

/-- The node of the read-only representation, `null` before the first `init`. -/
def viewNode (p : WaypointPresenter) : Option Node :=
  p.waypointComponent.map (Node.waypoint p.uid)

/-- The node of the edit-form representation, `null` before the first `init`. -/
def formNode (p : WaypointPresenter) : Option Node :=
  p.waypointEditComponent.map (Node.editForm p.uid)

/-- The method `init`: stores the data, builds both representations, and mounts the one
matching the current mode in place of its predecessor. -/
def init (p : WaypointPresenter) (a : InitArgs) (w : World) : WaypointPresenter × World :=
  let prevWaypointComponent := p.viewNode
  let prevWaypointEditComponent := p.formNode
  let q : WaypointPresenter :=
    { p with
      point := some a.point
      destinationsList := some a.destinationsList
      destination := a.destination
      offersList := some a.offersList
      waypointComponent := some ⟨a.point, a.offersList, a.destination⟩
      waypointEditComponent := some ⟨a.point, a.offersList, a.destination, a.destinationsList⟩ }
  if prevWaypointComponent.isNone || prevWaypointEditComponent.isNone then
    (q, w.call (Call.render q.viewNode))
  else
    let w1 := if q.mode = Mode.DEFAULT then
      w.call (Call.replace q.viewNode prevWaypointComponent) else w
    let w2 := if q.mode = Mode.EDITING then
      w1.call (Call.replace q.formNode prevWaypointEditComponent) else w1
    (q, (w2.call (Call.remove prevWaypointComponent)).call
      (Call.remove prevWaypointEditComponent))

/-- The method `destroy`: removes both representations, and nothing else. -/
def destroy (p : WaypointPresenter) (w : World) : WaypointPresenter × World :=
  (p, (w.call (Call.remove p.viewNode)).call (Call.remove p.formNode))

/-- The method `#replaceFormToPoint`. -/
def replaceFormToPoint (p : WaypointPresenter) (w : World) : WaypointPresenter × World :=
  ({ p with mode := Mode.DEFAULT },
    (w.removeEventListener p.uid).call (Call.replace p.viewNode p.formNode))

/-- The method `resetToDefaultWaypoint`. -/
def resetToDefaultWaypoint (p : WaypointPresenter) (w : World) : WaypointPresenter × World :=
  if p.mode = Mode.EDITING then p.replaceFormToPoint w else (p, w)

/-- The handler `#onEscKeydown`, with `isEscape` standing for `evt.key === 'Escape'`. -/
def onEscKeydown (p : WaypointPresenter) (isEscape : Bool) (w : World) :
    WaypointPresenter × World :=
  if isEscape then p.replaceFormToPoint w else (p, w)

/-- The handler `#onFormSubmit`. -/
def onFormSubmit (p : WaypointPresenter) (w : World) : WaypointPresenter × World :=
  let r := p.replaceFormToPoint w
  (r.1, r.2.removeEventListener p.uid)

/-- The class declares no method `setSaving`: the property read yields `undefined` and the
call throws a `TypeError`. -/
def setSaving (_p : WaypointPresenter) : Except JsError WaypointPresenter :=
  Except.error JsError.typeError

/-- The class declares no method `setDeleting`: the call throws a `TypeError`. -/
def setDeleting (_p : WaypointPresenter) : Except JsError WaypointPresenter :=
  Except.error JsError.typeError

/-- The class declares no method `setAborting`: the call throws a `TypeError`. -/
def setAborting (_p : WaypointPresenter) : Except JsError WaypointPresenter :=
  Except.error JsError.typeError

end WaypointPresenter

/-! ## `NewWaypointPresenter` and `EventsPresenter` (`events-presenter.js`) -/

/-- Transient annotation of a presenter during an in-flight mutation. -/
inductive PendingActionState
  | Saving
  | Deleting
  | Aborting
deriving DecidableEq

/-- Modelled from the spec: `new-waypoint-presenter.js` is absent. The creation presenter is in
an editing-equivalent state from `init()` until `destroy()` (`active`), and carries the pending
annotation set by `setSaving()` and `setAborting()`. -/
structure NewWaypointPresenter where
  active : Bool
  pending : Option PendingActionState
deriving DecidableEq

/-- State of the `EventsPresenter` instance: its private fields, the two models it observes
(`tripModel`, and `filterModel` as the filter currently held by the filter-state holder), the
engagement of its UI blocker, and the world outside it. A component field holds the
construction data of the view last assigned to it, `none` for `null`. -/
structure EventsPresenter where
  tripModel : TripModel
  filterModel : FilterType
  sortingComponent : Option SortType
  noWaypointsComponent : Option FilterType
  newWaypointButtonComponent : Option NewWaypointButtonMode
  tripInfoComponent : Option TripInfoView
  waypointPresenters : List (Nat × WaypointPresenter)
  newWaypointPresenter : Option NewWaypointPresenter
  currentSort : SortType
  currentFilter : FilterType
  isLoading : Bool
  isError : Bool
  uiBlocker : Bool
  world : World
  NewWaypointButtonMode : BigTrip.NewWaypointButtonMode

/-- Result of a method that can throw: the state when control left the method, and the
exception thrown, if any. -/
structure Outcome where
  state : EventsPresenter
  thrown : Option JsError

/-- Run a continuation after a method, unless the method threw. -/
def Outcome.andThen (o : Outcome) (f : EventsPresenter → Outcome) : Outcome :=
  match o.thrown with
  | none => f o.state
  | some _ => o

/-- The options object that `#renderWaypoint` passes to `new WaypointPresenter(...)`. -/
def renderWaypointOptions : Options :=
  [ (OptionKey.eventsListComponent, OptionValue.element),
    (OptionKey.handleWaypointsDataUpdate, OptionValue.handler Handler.handleViewAction),
    (OptionKey.resetWaypointsMode, OptionValue.handler Handler.resetWaypointsMode),
    (OptionKey.handleDestinationUpdate, OptionValue.handler Handler.handleDestinationUpdate),
    (OptionKey.handleOffersUpdate, OptionValue.handler Handler.handleOffersUpdate) ]

/-- The loop `forEach((p) => p.destroy())` over the presenter map. -/
def destroyAll : List (Nat × WaypointPresenter) → World → World
  | [], w => w
  | (_, p) :: m, w => destroyAll m (p.destroy w).2

/-- The loop `forEach((p) => p.resetToDefaultWaypoint())` over the presenter map. -/
def resetAll : List (Nat × WaypointPresenter) → World → List (Nat × WaypointPresenter) × World
  | [], w => ([], w)
  | (k, p) :: m, w =>
    let r := p.resetToDefaultWaypoint w
    let rest := resetAll m r.2
    ((k, r.1) :: rest.1, rest.2)

/-- Delivery of a keydown event to the `#onEscKeydown` listeners of the presenters held in the
map; `installed` is the listener set when the event is dispatched. A listener left behind by a
presenter that is no longer in the map is not run here: it would act on that presenter
alone. -/
def dispatchKeydown (installed : List Nat) (isEscape : Bool) :
    List (Nat × WaypointPresenter) → World → List (Nat × WaypointPresenter) × World
  | [], w => ([], w)
  | (k, p) :: m, w =>
    let r := if p.uid ∈ installed then p.onEscKeydown isEscape w else (p, w)
    let rest := dispatchKeydown installed isEscape m r.2
    ((k, r.1) :: rest.1, rest.2)

/-- The names of the route: `tripRouteIds.map((id) => getDestinationById(id).name)`; reading
`name` of `undefined` throws, which is `none` here. -/
def routeNames (getDestinationById : Nat → Option Destination) : List Nat → Option (List String)
  | [] => some []
  | destinationId :: ids =>
    match getDestinationById destinationId, routeNames getDestinationById ids with
    | some d, some names => some (d.name :: names)
    | _, _ => none

namespace EventsPresenter

/-- A new coordinator: the field initialisers of the class, over the given models. -/
def create (tripModel : TripModel) (filterModel : FilterType) : EventsPresenter :=
  { tripModel := tripModel
    filterModel := filterModel
    sortingComponent := none
    noWaypointsComponent := none
    newWaypointButtonComponent := none
    tripInfoComponent := none
    waypointPresenters := []
    newWaypointPresenter := none
    currentSort := SortType.DAY
    currentFilter := FilterType.EVERYTHING
    isLoading := true
    isError := false
    uiBlocker := false
    world := { keydownListeners := [], log := [], nextUid := 0 }
    NewWaypointButtonMode := .ENABLED }

/-- Append one collaborator call to the log. -/
def call (s : EventsPresenter) (c : Call) : EventsPresenter :=
  { s with world := s.world.call c }

/-- Normal completion. -/
def done (s : EventsPresenter) : Outcome :=
  { state := s, thrown := none }

/-- Abrupt completion with a `TypeError`. -/
def typeError (s : EventsPresenter) : Outcome :=
  { state := s, thrown := some JsError.typeError }

/-- The getter `waypoints`: records the active filter in `#currentFilter` and returns the
filtered collection sorted by the current sort type. The filter is taken to return a fresh
array, so the in-place `sort` of its result leaves the store's own order as it is. -/
def waypoints (U : Utils) (s : EventsPresenter) : List Waypoint × EventsPresenter :=
  let s1 := { s with currentFilter := s.filterModel }
  let filteredWaypoints := U.filter s1.currentFilter s1.tripModel.waypoints
  match s1.currentSort with
  | SortType.TIME => (sort U.sortByTime filteredWaypoints, s1)
  | SortType.PRICE => (sort U.sortByPrice filteredWaypoints, s1)
  | SortType.DAY => (sort U.sortByDate filteredWaypoints, s1)

/-- The method `#updateWaypointPresentersData`. The payload of the notification may be absent,
and the map may hold no presenter under its id: both property reads throw. -/
def updateWaypointPresentersData (s : EventsPresenter) (updatedPoint : Option Waypoint) :
    Outcome :=
  match updatedPoint with
  | none => s.typeError
  | some updatedPoint =>
    let destinationsList := s.tripModel.destinations
    let destination := s.tripModel.getDestinationById updatedPoint.destination
    let offersList := s.tripModel.getOffersByType updatedPoint.type
    match Map.get s.waypointPresenters updatedPoint.id with
    | none => s.typeError
    | some p =>
      let r := p.init ⟨updatedPoint, destinationsList, destination, offersList⟩ s.world
      done { s with
        waypointPresenters := Map.set s.waypointPresenters updatedPoint.id r.1
        world := r.2 }

/-- The method `#clearEvents`. -/
def clearEvents (s : EventsPresenter) (resetSortType : Bool) : EventsPresenter :=
  let s1 := { s with
    world := destroyAll s.waypointPresenters s.world
    waypointPresenters := []
    NewWaypointButtonMode := .ENABLED }
  let s2 := ((s1.call (Call.remove (s1.sortingComponent.map Node.sorting))).call
    (Call.remove (s1.noWaypointsComponent.map Node.noWaypoints))).call
    (Call.remove (s1.tripInfoComponent.map Node.tripInfo))
  if resetSortType then { s2 with currentSort := SortType.DAY } else s2

/-- The method `#renderNewWaypointButton`. -/
def renderNewWaypointButton (s : EventsPresenter) : EventsPresenter :=
  let s1 := match s.newWaypointButtonComponent with
    | some b => s.call (Call.remove (some (Node.newWaypointButton b)))
    | none => s
  let s2 := { s1 with newWaypointButtonComponent := some s1.NewWaypointButtonMode }
  s2.call (Call.render (some (Node.newWaypointButton s2.NewWaypointButtonMode)))

/-- The method `#renderNoWaypoints`. -/
def renderNoWaypoints (s : EventsPresenter) : EventsPresenter :=
  let s1 := { s with noWaypointsComponent := some s.currentFilter }
  s1.call (Call.render (some (Node.noWaypoints s.currentFilter)))

/-- The handler `#handleCloseForm`. -/
def handleCloseForm (U : Utils) (s : EventsPresenter) : EventsPresenter :=
  let s1 := renderNewWaypointButton { s with NewWaypointButtonMode := .ENABLED }
  let r := waypoints U s1
  if r.1.isEmpty then renderNoWaypoints r.2 else r.2

/-- Modelled from the spec: `NewWaypointPresenter.destroy()`, absent from the sources. A live
creation presenter removes its form and reports the end of the flow through the
`handleCloseForm` callback it was constructed with; a destroyed one does nothing. -/
def destroyNewWaypointPresenter (U : Utils) (s : EventsPresenter) : EventsPresenter :=
  match s.newWaypointPresenter with
  | none => s
  | some np =>
    if np.active then
      handleCloseForm U
        ({ s with newWaypointPresenter := some { np with active := false } }.call
          (Call.remove (some Node.newWaypointForm)))
    else s

/-- The handler `#resetWaypointsMode`. -/
def resetWaypointsMode (U : Utils) (s : EventsPresenter) : EventsPresenter :=
  let r := resetAll s.waypointPresenters s.world
  let s1 := { s with waypointPresenters := r.1, world := r.2 }
  match s1.newWaypointPresenter with
  | some _ => destroyNewWaypointPresenter U s1
  | none => s1

/-- The method `#renderWaypoint`. -/
def renderWaypoint (s : EventsPresenter) (point : Waypoint) (destinationsList : List Destination)
    (destination : Option Destination) (offersList : List Offer) : EventsPresenter :=
  let waypointPresenter := WaypointPresenter.create s.world.nextUid renderWaypointOptions
  let r := waypointPresenter.init ⟨point, destinationsList, destination, offersList⟩
    { s.world with nextUid := s.world.nextUid + 1 }
  { s with
    waypointPresenters := Map.set s.waypointPresenters point.id r.1
    world := r.2 }

/-- The method `#renderWaypoints`. -/
def renderWaypoints (U : Utils) (s : EventsPresenter) : EventsPresenter :=
  let destinationsList := s.tripModel.destinations
  let r := waypoints U s
  r.1.foldl (fun acc point =>
    renderWaypoint acc point destinationsList
      (acc.tripModel.getDestinationById point.destination)
      (acc.tripModel.getOffersByType point.type)) r.2

/-- The method `#renderSorting`. -/
def renderSorting (s : EventsPresenter) : EventsPresenter :=
  let s1 := { s with sortingComponent := some s.currentSort }
  s1.call (Call.render (some (Node.sorting s.currentSort)))

/-- The summary that `#renderTripInfo` computes from the store, `none` when a route id has no
destination (the read of `name` throws). -/
def tripInfo (U : Utils) (tripModel : TripModel) : Option TripInfoView :=
  let defaultWaypoints := tripModel.waypoints
  let tripRouteIds := U.getTripRouteIds defaultWaypoints
  match routeNames tripModel.getDestinationById tripRouteIds with
  | none => none
  | some tripRoute =>
    let tripDuration := U.getTripDuration defaultWaypoints
    let totalBasePrice := U.getTotalBasePrice defaultWaypoints
    let totalAddOptionalPrice := defaultWaypoints.foldl (fun totalPrice currentWaypoint =>
      U.getWaypointAddOptionalPrice currentWaypoint
        (tripModel.getOffersByType currentWaypoint.type) + totalPrice) 0
    some ⟨tripRoute, tripDuration, totalBasePrice + totalAddOptionalPrice⟩

/-- The method `#renderTripInfo`. -/
def renderTripInfo (U : Utils) (s : EventsPresenter) : Outcome :=
  match tripInfo U s.tripModel with
  | none => s.typeError
  | some view =>
    done ({ s with tripInfoComponent := some view }.call
      (Call.render (some (Node.tripInfo view))))

/-- The method `#renderEvents`. -/
def renderEvents (U : Utils) (s : EventsPresenter) : Outcome :=
  let s1 := if s.isError then s.call (Call.render (some Node.errorLoading)) else s
  let s2 := if s1.isLoading then s1.call (Call.render (some Node.loading)) else s1
  if s2.isError || s2.isLoading then
    done (renderNewWaypointButton { s2 with NewWaypointButtonMode := .DISABLED })
  else
    let s3 := renderNewWaypointButton { s2 with NewWaypointButtonMode := .ENABLED }
    let s4 := s3.call (Call.render (some Node.eventsList))
    let r := waypoints U s4
    if r.1.isEmpty then done (renderNoWaypoints r.2)
    else
      (renderTripInfo U r.2).andThen fun s5 =>
        done (renderWaypoints U (renderSorting s5))

/-- The method `init`. -/
def init (U : Utils) (s : EventsPresenter) : Outcome :=
  renderEvents U s

/-- The observer `#handleModelEvent`. -/
def handleModelEvent (U : Utils) (updateType : UpdateType) (updatedWaypoint : Option Waypoint)
    (s : EventsPresenter) : Outcome :=
  match updateType with
  | UpdateType.PATCH => updateWaypointPresentersData s updatedWaypoint
  | UpdateType.MINOR => renderEvents U (clearEvents s false)
  | UpdateType.MAJOR => renderEvents U (clearEvents s true)
  | UpdateType.INIT =>
    renderEvents U ({ s with isLoading := false }.call (Call.remove (some Node.loading)))
  | UpdateType.ERROR => renderEvents U (clearEvents { s with isError := true } false)

/-- Modelled from the spec: `FilterModel.setFilter`, absent from the sources. The setter stores
the filter and notifies its observers, of which the coordinator is one. -/
def setFilter (U : Utils) (updateType : UpdateType) (filterType : FilterType)
    (s : EventsPresenter) : Outcome :=
  handleModelEvent U updateType none
    ({ s with filterModel := filterType }.call (Call.setFilter updateType filterType))

/-- The method `#createWaypoint`, with `#renderNewWaypointPresenter` and the `init()` of the new
creation presenter (modelled from the spec: it opens the creation form). -/
def createWaypoint (U : Utils) (s : EventsPresenter) : Outcome :=
  (setFilter U UpdateType.MAJOR FilterType.EVERYTHING
      { s with currentSort := SortType.DAY }).andThen fun s1 =>
    let s2 := s1.call (Call.remove (s1.noWaypointsComponent.map Node.noWaypoints))
    let s3 := { s2 with newWaypointPresenter := some { active := false, pending := none } }
    done ({ s3 with newWaypointPresenter := some { active := true, pending := none } }.call
      (Call.render (some Node.newWaypointForm)))

/-- The handler `#onNewWaypointButtonClick`. -/
def onNewWaypointButtonClick (U : Utils) (s : EventsPresenter) : Outcome :=
  (createWaypoint U s).andThen fun s1 =>
    done (renderNewWaypointButton { s1 with NewWaypointButtonMode := .DISABLED })

/-- The handler `#applySort`. -/
def applySort (U : Utils) (sortType : SortType) (s : EventsPresenter) : Outcome :=
  if sortType = s.currentSort then done s
  else renderEvents U (clearEvents { s with currentSort := sortType } false)

/-! ### Action dispatch -/

/-- Modelled from the spec: `UiBlocker.block()`, which engages the global block. -/
def blockUi (s : EventsPresenter) : EventsPresenter :=
  { s with uiBlocker := true }.call Call.block

/-- Modelled from the spec: `UiBlocker.unblock()`, which releases the global block. -/
def unblockUi (s : EventsPresenter) : EventsPresenter :=
  { s with uiBlocker := false }.call Call.unblock

/-- A method call `this.#waypointPresenters.get(id).method()`: the lookup may yield
`undefined`, and the method may be missing from the class. -/
def callOnPresenter (s : EventsPresenter) (id : Nat)
    (method : WaypointPresenter → Except JsError WaypointPresenter) : Outcome :=
  match Map.get s.waypointPresenters id with
  | none => s.typeError
  | some p =>
    match method p with
    | Except.error e => { state := s, thrown := some e }
    | Except.ok q => done { s with waypointPresenters := Map.set s.waypointPresenters id q }

/-- A method call `this.#newWaypointPresenter.method()` that sets the pending annotation
(modelled from the spec: `setSaving()` and `setAborting()` of the creation presenter); the
field may be `null`. -/
def markNewWaypointPresenter (s : EventsPresenter) (pending : PendingActionState) : Outcome :=
  match s.newWaypointPresenter with
  | none => s.typeError
  | some np => done { s with newWaypointPresenter := some { np with pending := some pending } }

/-- The part of `#handleViewAction` that runs before its `await`: engage the block, mark the
affected presenter, call the store operation. -/
def handleViewActionBegin (actionType : UserAction) (updateType : UpdateType)
    (updatedWaypoint : Waypoint) (s : EventsPresenter) : Outcome :=
  let s1 := blockUi s
  match actionType with
  | UserAction.UPDATE_WAYPOINT =>
    (callOnPresenter s1 updatedWaypoint.id WaypointPresenter.setSaving).andThen fun s2 =>
      done (s2.call (Call.updateWaypoint updateType updatedWaypoint))
  | UserAction.ADD_WAYPOINT =>
    (markNewWaypointPresenter s1 PendingActionState.Saving).andThen fun s2 =>
      done (s2.call (Call.addWaypoint updateType updatedWaypoint))
  | UserAction.DELETE_WAYPOINT =>
    (callOnPresenter s1 updatedWaypoint.id WaypointPresenter.setDeleting).andThen fun s2 =>
      done (s2.call (Call.deleteWaypoint updateType updatedWaypoint))

/-- How a store operation settles: it rejects, or it resolves after the store has replaced its
data and notified its observers. -/
inductive StoreResult
  | resolved (tripModel : TripModel)
  | rejected

/-- Modelled from the spec: the settling of a mutating store operation, absent from the
sources. A rejection leaves the store unchanged; otherwise the store holds the new data and
delivers `(updateType, entity)` to the coordinator, and an exception of the observer rejects
the operation. -/
def storeSettle (U : Utils) (updateType : UpdateType) (updatedWaypoint : Waypoint)
    (r : StoreResult) (s : EventsPresenter) : Outcome :=
  match r with
  | StoreResult.rejected => { state := s, thrown := some JsError.rejection }
  | StoreResult.resolved tripModel =>
    handleModelEvent U updateType (some updatedWaypoint) { s with tripModel := tripModel }

/-- The part of `#handleViewAction` that runs after its `await`, given how the store operation
settled: the rest of the `try` block or the `catch` block, then `unblock()`. -/
def handleViewActionResume (U : Utils) (actionType : UserAction) (updatedWaypoint : Waypoint)
    (settled : Outcome) : Outcome :=
  match actionType with
  | UserAction.UPDATE_WAYPOINT =>
    (match settled.thrown with
      | none => done settled.state
      | some _ =>
        callOnPresenter settled.state updatedWaypoint.id WaypointPresenter.setAborting).andThen
      fun s => done (unblockUi s)
  | UserAction.ADD_WAYPOINT =>
    (match settled.thrown, settled.state.newWaypointPresenter with
      | none, some _ => done (destroyNewWaypointPresenter U settled.state)
      | _, _ => markNewWaypointPresenter settled.state PendingActionState.Aborting).andThen
      fun s => done (unblockUi s)
  | UserAction.DELETE_WAYPOINT =>
    (match settled.thrown with
      | none => done settled.state
      | some _ =>
        callOnPresenter settled.state updatedWaypoint.id WaypointPresenter.setAborting).andThen
      fun s => done (unblockUi s)

/-- The handler `#handleViewAction`, run to completion with the given settling of the store
operation. -/
def handleViewAction (U : Utils) (actionType : UserAction) (updateType : UpdateType)
    (updatedWaypoint : Waypoint) (r : StoreResult) (s : EventsPresenter) : Outcome :=
  (handleViewActionBegin actionType updateType updatedWaypoint s).andThen fun s1 =>
    handleViewActionResume U actionType updatedWaypoint
      (storeSettle U updateType updatedWaypoint r s1)

/-! ### Callbacks from the item presenters -/

/-- A coordinator callback as an item presenter calls it: `#resetWaypointsMode()` without
arguments, `#updateWaypointsData(updatedWaypoint)` with one object. As the first parameter of
`#handleViewAction` that object matches no case of the `switch`, so the block is engaged and
released at once; the two lookup callbacks change nothing. -/
def invoke (U : Utils) (h : Handler) (s : EventsPresenter) : EventsPresenter :=
  match h with
  | Handler.handleViewAction => unblockUi (blockUi s)
  | Handler.resetWaypointsMode => resetWaypointsMode U s
  | Handler.handleDestinationUpdate => s
  | Handler.handleOffersUpdate => s

/-- The assignment `this.#mode = mode` in the presenter stored under `id`. -/
def setMode (m : List (Nat × WaypointPresenter)) (id : Nat) (mode : Mode) :
    List (Nat × WaypointPresenter) :=
  match Map.get m id with
  | some q => Map.set m id { q with mode := mode }
  | none => m

/-- The handler `#onEditClick` of the presenter stored under `id`, which runs
`#replacePointToForm`: install the listener, swap the representations, call the coordinator
callback, enter `EDITING`. -/
def onEditClick (U : Utils) (id : Nat) (s : EventsPresenter) : Outcome :=
  match Map.get s.waypointPresenters id with
  | none => done s
  | some p =>
    let s1 := { s with
      world := (s.world.addEventListener p.uid).call (Call.replace p.formNode p.viewNode) }
    match p.resetWaypointsMode with
    | none => s1.typeError
    | some h =>
      let s2 := invoke U h s1
      done { s2 with waypointPresenters := setMode s2.waypointPresenters id Mode.EDITING }

/-- A keydown event on `document`. -/
def onKeydown (isEscape : Bool) (s : EventsPresenter) : EventsPresenter :=
  let r := dispatchKeydown s.world.keydownListeners isEscape s.waypointPresenters s.world
  { s with waypointPresenters := r.1, world := r.2 }

/-- The handler `#onFormSubmit` of the presenter stored under `id`. -/
def onFormSubmit (id : Nat) (s : EventsPresenter) : EventsPresenter :=
  match Map.get s.waypointPresenters id with
  | none => s
  | some p =>
    let r := p.onFormSubmit s.world
    { s with waypointPresenters := Map.set s.waypointPresenters id r.1, world := r.2 }

/-- The handler `#onFavoriteClick` of the presenter stored under `id`: build the point with the
flag flipped and pass it to the `#updateWaypointsData` callback. -/
def onFavoriteClick (U : Utils) (id : Nat) (s : EventsPresenter) : Outcome :=
  match Map.get s.waypointPresenters id with
  | none => done s
  | some p =>
    match p.point with
    | none => s.typeError
    | some point =>
      let _updatedPoint : Waypoint := { point with isFavorite := !point.isFavorite }
      match p.updateWaypointsData with
      | none => s.typeError
      | some h => done (invoke U h s)

end EventsPresenter

/-! ## Runs -/

/-- What can happen to a coordinator: user input on the views it has mounted, and
notifications of the two models it observes. A notification carries the data the models hold
when it is delivered. -/
inductive Event
  | init
  | editClick (id : Nat)
  | keydown (isEscape : Bool)
  | formSubmit (id : Nat)
  | favoriteClick (id : Nat)
  | resetWaypointsMode
  | notify (updateType : UpdateType) (payload : Option Waypoint) (tripModel : TripModel)
      (filterModel : FilterType)
  | applySort (sortType : SortType)
  | newWaypointButtonClick
  | closeNewWaypoint
  | viewAction (actionType : UserAction) (updateType : UpdateType) (update : Waypoint)
      (r : EventsPresenter.StoreResult)

/-- The state after one event; an exception ends the handler and is not caught. -/
def step (U : Utils) (s : EventsPresenter) : Event → EventsPresenter
  | Event.init => (s.init U).state
  | Event.editClick id => (s.onEditClick U id).state
  | Event.keydown isEscape => s.onKeydown isEscape
  | Event.formSubmit id => s.onFormSubmit id
  | Event.favoriteClick id => (s.onFavoriteClick U id).state
  | Event.resetWaypointsMode => s.resetWaypointsMode U
  | Event.notify updateType payload tripModel filterModel =>
    (EventsPresenter.handleModelEvent U updateType payload
      { s with tripModel := tripModel, filterModel := filterModel }).state
  | Event.applySort sortType => (s.applySort U sortType).state
  | Event.newWaypointButtonClick => (s.onNewWaypointButtonClick U).state
  | Event.closeNewWaypoint => s.destroyNewWaypointPresenter U
  | Event.viewAction actionType updateType update r =>
    (s.handleViewAction U actionType updateType update r).state

/-- The state after a sequence of events. -/
def run (U : Utils) (s : EventsPresenter) (events : List Event) : EventsPresenter :=
  events.foldl (step U) s

/-- The number of presenters of the map that are in `EDITING` mode. -/
def EventsPresenter.editingCount (s : EventsPresenter) : Nat :=
  s.waypointPresenters.countP (fun e => decide (e.2.mode = Mode.EDITING))

/-! ## A concrete store -/

/-- Modelled from the spec: the filter table, `Everything` keeping every waypoint and
`Favorites` the favourite ones. -/
def demoFilter : FilterType → List Waypoint → List Waypoint
  | FilterType.EVERYTHING, points => points
  | FilterType.FAVORITES, points => points.filter (fun point => point.isFavorite)

/-- Modelled from the spec: comparators by ascending start, descending duration and descending
base price; the route as the destinations in store order; the duration from first start to
last end; the cost helpers as sums. -/
def demoUtils : Utils :=
  { filter := demoFilter
    sortByTime := fun a b => ((b.dateTo : Int) - b.dateFrom) - ((a.dateTo : Int) - a.dateFrom)
    sortByPrice := fun a b => (b.basePrice : Int) - a.basePrice
    sortByDate := fun a b => (a.dateFrom : Int) - b.dateFrom
    getTripRouteIds := fun points => (points.map (fun point => point.destination)).dedup
    getTripDuration := fun points =>
      (points.map (fun point => point.dateTo)).foldl max 0 -
        (points.map (fun point => point.dateFrom)).foldl min
          ((points.map (fun point => point.dateFrom)).foldl max 0)
    getTotalBasePrice := fun points => (points.map (fun point => point.basePrice)).sum
    getWaypointAddOptionalPrice := fun point offers =>
      ((offers.filter (fun offer => decide (offer.id ∈ point.offers))).map
        (fun offer => offer.price)).sum }

/-- A waypoint of the concrete store. -/
def demoPoint (id destination dateFrom basePrice : Nat) : Waypoint :=
  { id := id, type := "flight", destination := destination, dateFrom := dateFrom,
    dateTo := dateFrom + 1, basePrice := basePrice, offers := [], isFavorite := false }

/-- The destinations of the concrete store. -/
def demoDestinations : List Destination :=
  [⟨1, "Amsterdam", ""⟩, ⟨2, "Geneva", ""⟩]

/-- A store with two waypoints, neither of them a favourite. -/
def demoModel : TripModel :=
  { waypoints := [demoPoint 10 1 5 100, demoPoint 20 2 7 50]
    destinations := demoDestinations
    getDestinationById := fun id => demoDestinations.find? (fun d => d.id == id)
    getOffersByType := fun _ => [] }

/-- The concrete coordinator after `init()` and a successful load: two item presenters. -/
def demoLoaded : EventsPresenter :=
  run demoUtils (EventsPresenter.create demoModel FilterType.EVERYTHING)
    [Event.init, Event.notify UpdateType.INIT none demoModel FilterType.EVERYTHING]


/-- The item presenter that the concrete coordinator holds under id 10 after the load. -/
def demoPresenter : WaypointPresenter :=
  { uid := 0
    eventsListComponent := some OptionValue.element
    waypointComponent := some ⟨demoPoint 10 1 5 100, [], some ⟨1, "Amsterdam", ""⟩⟩
    waypointEditComponent :=
      some ⟨demoPoint 10 1 5 100, [], some ⟨1, "Amsterdam", ""⟩, demoDestinations⟩
    resetWaypointsMode := some Handler.resetWaypointsMode
    point := some (demoPoint 10 1 5 100)
    destinationsList := some demoDestinations
    destination := some ⟨1, "Amsterdam", ""⟩
    offersList := some []
    updateWaypointsData := none
    mode := Mode.DEFAULT }

/-! ## Vocabulary of the statements -/

/-- The presenter that built an item node, `none` for a node of the coordinator. -/
def Node.owner : Node → Option Nat
  | Node.waypoint uid _ => some uid
  | Node.editForm uid _ => some uid
  | _ => none

/-- A call is a rendering primitive applied to nodes of the presenter `uid` only (a `null`
argument belongs to nobody and is allowed). -/
def Call.onlyTouches (uid : Nat) : Call → Prop
  | Call.render n => ∀ x ∈ n, x.owner = some uid
  | Call.replace a b => (∀ x ∈ a, x.owner = some uid) ∧ (∀ x ∈ b, x.owner = some uid)
  | Call.remove n => ∀ x ∈ n, x.owner = some uid
  | _ => False

/-- A call renders a trip summary. -/
def Call.rendersTripInfo : Call → Bool
  | Call.render (some (Node.tripInfo _)) => true
  | _ => false

/-- A call is a mutating store operation. -/
def Call.isStoreOperation : Call → Bool
  | Call.updateWaypoint _ _ => true
  | Call.addWaypoint _ _ => true
  | Call.deleteWaypoint _ _ => true
  | _ => false

/-- A notification together with the data the two models hold when it is delivered. -/
structure Notification where
  updateType : UpdateType
  payload : Option Waypoint
  tripModel : TripModel
  filterModel : FilterType

/-- The delivery of a notification, as an event. -/
def Notification.toEvent (n : Notification) : Event :=
  Event.notify n.updateType n.payload n.tripModel n.filterModel

/-- The error phase as the coordinator shows it: the error flag is set, no item presenter
exists, and the creation button is disabled, both in `#NewWaypointButtonMode` and in the button
component that is rendered. -/
def ErrorPhase (s : EventsPresenter) : Prop :=
  s.isError = true ∧ s.waypointPresenters = [] ∧
    s.NewWaypointButtonMode = NewWaypointButtonMode.DISABLED ∧
    s.newWaypointButtonComponent = some NewWaypointButtonMode.DISABLED

/-- The concrete coordinator with a creation flow open: after a click on the creation
button. -/
def demoCreating : EventsPresenter :=
  run demoUtils demoLoaded [Event.newWaypointButtonClick]

/-- The concrete coordinator with an item in edit mode: after an edit request on the
presenter stored under id 10. -/
def demoEditing : EventsPresenter :=
  run demoUtils demoLoaded [Event.editClick 10]

/-- The calls that a coordinator has made since an earlier state. -/
def callsSince (before after : EventsPresenter) : List Call :=
  after.world.log.drop before.world.log.length

/-- The concrete coordinator while a first add dispatch awaits the store: the creation flow is
open, the block is engaged and `addWaypoint` has been called. -/
def demoAwaiting : EventsPresenter :=
  (demoCreating.handleViewActionBegin UserAction.ADD_WAYPOINT UpdateType.MINOR
    (demoPoint 30 1 9 70)).state

/-- What the rendering methods never assign: the creation presenter and the sort type. -/
def EventsPresenter.kept (s : EventsPresenter) : Option NewWaypointPresenter × SortType :=
  (s.newWaypointPresenter, s.currentSort)

/-! ## Lemmas on the presenter map -/

/-- Every presenter of the map holds the coordinator's reset callback. -/
def Wired (m : List (Nat × WaypointPresenter)) : Prop :=
  ∀ e ∈ m, e.2.resetWaypointsMode = some Handler.resetWaypointsMode

/-- The number of presenters of a map that are in `EDITING` mode. -/
def countEditing (m : List (Nat × WaypointPresenter)) : Nat :=
  m.countP (fun e => decide (e.2.mode = Mode.EDITING))

/-- The step from one map to another keeps the wiring and does not add an editing presenter. -/
def Pres (m m' : List (Nat × WaypointPresenter)) : Prop :=
  (Wired m → Wired m') ∧ countEditing m' ≤ countEditing m

theorem Pres.refl (m : List (Nat × WaypointPresenter)) : Pres m m :=
  ⟨id, le_rfl⟩

theorem Pres.trans {a b c : List (Nat × WaypointPresenter)} (h1 : Pres a b) (h2 : Pres b c) :
    Pres a c :=
  ⟨fun h => h2.1 (h1.1 h), le_trans h2.2 h1.2⟩

theorem Pres.of_eq {a b : List (Nat × WaypointPresenter)} (h : b = a) : Pres a b := by
  subst h
  exact Pres.refl _

theorem wired_nil : Wired [] := by
  intro e he
  cases he

theorem countEditing_nil : countEditing [] = 0 := rfl

theorem countEditing_cons (k : Nat) (p : WaypointPresenter) (m : List (Nat × WaypointPresenter)) :
    countEditing ((k, p) :: m) = countEditing m + (if p.mode = Mode.EDITING then 1 else 0) := by
  simp [countEditing, List.countP_cons]

theorem wired_cons (k : Nat) (p : WaypointPresenter) (m : List (Nat × WaypointPresenter)) :
    Wired ((k, p) :: m) ↔ p.resetWaypointsMode = some Handler.resetWaypointsMode ∧ Wired m := by
  simp [Wired]

theorem wired_set {m : List (Nat × WaypointPresenter)} (k : Nat) (v : WaypointPresenter)
    (hm : Wired m) (hv : v.resetWaypointsMode = some Handler.resetWaypointsMode) :
    Wired (Map.set m k v) := by
  induction m with
  | nil =>
    simp [Map.set, wired_cons, hv, wired_nil]
  | cons e m ih =>
    obtain ⟨k', p⟩ := e
    rw [wired_cons] at hm
    by_cases h : k' = k
    · simp [Map.set, h, wired_cons, hv, hm.2]
    · simp [Map.set, h, wired_cons, hm.1, ih hm.2]

theorem countEditing_set_default (m : List (Nat × WaypointPresenter)) (k : Nat)
    (v : WaypointPresenter) (hv : v.mode = Mode.DEFAULT) :
    countEditing (Map.set m k v) ≤ countEditing m := by
  induction m with
  | nil => simp [Map.set, countEditing_cons, hv, countEditing_nil]
  | cons e m ih =>
    obtain ⟨k', p⟩ := e
    by_cases h : k' = k
    · simp [Map.set, h, countEditing_cons, hv]
    · simp [Map.set, h, countEditing_cons, ih]

theorem countEditing_set_same (m : List (Nat × WaypointPresenter)) (k : Nat)
    (p v : WaypointPresenter) (hp : Map.get m k = some p) (hv : v.mode = p.mode) :
    countEditing (Map.set m k v) = countEditing m := by
  induction m with
  | nil => simp [Map.get] at hp
  | cons e m ih =>
    obtain ⟨k', q⟩ := e
    by_cases h : k' = k
    · simp [Map.get, h] at hp
      subst hp
      simp [Map.set, h, countEditing_cons, hv]
    · simp [Map.get, h] at hp
      simp [Map.set, h, countEditing_cons, ih hp]

theorem countEditing_set_le (m : List (Nat × WaypointPresenter)) (k : Nat)
    (v : WaypointPresenter) : countEditing (Map.set m k v) ≤ countEditing m + 1 := by
  induction m with
  | nil =>
    simp [Map.set, countEditing_cons, countEditing_nil]
    split <;> simp
  | cons e m ih =>
    obtain ⟨k', p⟩ := e
    by_cases h : k' = k
    · simp [Map.set, h, countEditing_cons]
      split <;> split <;> omega
    · simp [Map.set, h, countEditing_cons]
      omega

theorem wired_of_get {m : List (Nat × WaypointPresenter)} {k : Nat} {p : WaypointPresenter}
    (hm : Wired m) (hp : Map.get m k = some p) :
    p.resetWaypointsMode = some Handler.resetWaypointsMode := by
  induction m with
  | nil => simp [Map.get] at hp
  | cons e m ih =>
    obtain ⟨k', q⟩ := e
    rw [wired_cons] at hm
    by_cases h : k' = k
    · simp [Map.get, h] at hp
      subst hp
      exact hm.1
    · simp [Map.get, h] at hp
      exact ih hm.2 hp

/-! ## Lemmas on the item presenter -/

theorem WaypointPresenter.init_mode (p : WaypointPresenter) (a : InitArgs) (w : World) :
    (p.init a w).1.mode = p.mode := by
  unfold WaypointPresenter.init
  dsimp only
  split <;> rfl

theorem WaypointPresenter.init_resetWaypointsMode (p : WaypointPresenter) (a : InitArgs)
    (w : World) : (p.init a w).1.resetWaypointsMode = p.resetWaypointsMode := by
  unfold WaypointPresenter.init
  dsimp only
  split <;> rfl

theorem WaypointPresenter.init_uid (p : WaypointPresenter) (a : InitArgs) (w : World) :
    (p.init a w).1.uid = p.uid := by
  unfold WaypointPresenter.init
  dsimp only
  split <;> rfl

theorem WaypointPresenter.init_point (p : WaypointPresenter) (a : InitArgs) (w : World) :
    (p.init a w).1.point = some a.point := by
  unfold WaypointPresenter.init
  dsimp only
  split <;> rfl

theorem WaypointPresenter.resetToDefaultWaypoint_mode (p : WaypointPresenter) (w : World) :
    (p.resetToDefaultWaypoint w).1.mode = Mode.DEFAULT := by
  unfold WaypointPresenter.resetToDefaultWaypoint
  split
  · rfl
  · cases h : p.mode with
    | DEFAULT => rfl
    | EDITING => contradiction

theorem WaypointPresenter.resetToDefaultWaypoint_wired (p : WaypointPresenter) (w : World) :
    (p.resetToDefaultWaypoint w).1.resetWaypointsMode = p.resetWaypointsMode := by
  unfold WaypointPresenter.resetToDefaultWaypoint
  split <;> rfl

theorem WaypointPresenter.onEscKeydown_wired (p : WaypointPresenter) (b : Bool) (w : World) :
    (p.onEscKeydown b w).1.resetWaypointsMode = p.resetWaypointsMode := by
  unfold WaypointPresenter.onEscKeydown
  split <;> rfl

theorem WaypointPresenter.onEscKeydown_mode (p : WaypointPresenter) (b : Bool) (w : World) :
    (p.onEscKeydown b w).1.mode = Mode.DEFAULT ∨ (p.onEscKeydown b w).1.mode = p.mode := by
  unfold WaypointPresenter.onEscKeydown
  split
  · exact Or.inl rfl
  · exact Or.inr rfl

theorem resetAll_count (m : List (Nat × WaypointPresenter)) (w : World) :
    countEditing (resetAll m w).1 = 0 := by
  induction m generalizing w with
  | nil => rfl
  | cons e m ih =>
    obtain ⟨k, p⟩ := e
    simp [resetAll, countEditing_cons, ih, WaypointPresenter.resetToDefaultWaypoint_mode]

theorem resetAll_wired (m : List (Nat × WaypointPresenter)) (w : World) (hm : Wired m) :
    Wired (resetAll m w).1 := by
  induction m generalizing w with
  | nil => exact wired_nil
  | cons e m ih =>
    obtain ⟨k, p⟩ := e
    rw [wired_cons] at hm
    simp only [resetAll, wired_cons, WaypointPresenter.resetToDefaultWaypoint_wired]
    exact ⟨hm.1, ih _ hm.2⟩

theorem dispatchKeydown_pres (installed : List Nat) (b : Bool)
    (m : List (Nat × WaypointPresenter)) (w : World) :
    Pres m (dispatchKeydown installed b m w).1 := by
  induction m generalizing w with
  | nil => exact Pres.refl _
  | cons e m ih =>
    obtain ⟨k, p⟩ := e
    simp only [dispatchKeydown]
    constructor
    · intro hm
      rw [wired_cons] at hm
      rw [wired_cons]
      refine ⟨?_, (ih _).1 hm.2⟩
      split
      · rw [WaypointPresenter.onEscKeydown_wired]; exact hm.1
      · exact hm.1
    · rw [countEditing_cons, countEditing_cons]
      have h1 := (ih (if p.uid ∈ installed then p.onEscKeydown b w else (p, w)).2).2
      have h2 : (if (if p.uid ∈ installed then p.onEscKeydown b w else (p, w)).1.mode
          = Mode.EDITING then 1 else 0) ≤ (if p.mode = Mode.EDITING then 1 else 0) := by
        by_cases hi : p.uid ∈ installed
        · simp only [hi, if_true]
          rcases WaypointPresenter.onEscKeydown_mode p b w with h | h
          · simp [h]
          · simp [h]
        · simp [hi]
      omega

namespace EventsPresenter

/-! ## The coordinator's methods and the presenter map -/

theorem renderNewWaypointButton_presenters (s : EventsPresenter) :
    (renderNewWaypointButton s).waypointPresenters = s.waypointPresenters := by
  unfold renderNewWaypointButton
  cases s.newWaypointButtonComponent <;> rfl

theorem renderNoWaypoints_presenters (s : EventsPresenter) :
    (renderNoWaypoints s).waypointPresenters = s.waypointPresenters := rfl

theorem waypoints_presenters (U : Utils) (s : EventsPresenter) :
    (waypoints U s).2.waypointPresenters = s.waypointPresenters := by
  unfold waypoints
  dsimp only
  cases s.currentSort <;> rfl

theorem handleCloseForm_presenters (U : Utils) (s : EventsPresenter) :
    (handleCloseForm U s).waypointPresenters = s.waypointPresenters := by
  unfold handleCloseForm
  dsimp only
  split
  · rw [renderNoWaypoints_presenters, waypoints_presenters, renderNewWaypointButton_presenters]
  · rw [waypoints_presenters, renderNewWaypointButton_presenters]

theorem destroyNewWaypointPresenter_presenters (U : Utils) (s : EventsPresenter) :
    (destroyNewWaypointPresenter U s).waypointPresenters = s.waypointPresenters := by
  unfold destroyNewWaypointPresenter
  split
  · rfl
  · split
    · rw [handleCloseForm_presenters]; rfl
    · rfl

theorem resetWaypointsMode_presenters (U : Utils) (s : EventsPresenter) :
    (resetWaypointsMode U s).waypointPresenters = (resetAll s.waypointPresenters s.world).1 := by
  unfold resetWaypointsMode
  dsimp only
  split
  · rw [destroyNewWaypointPresenter_presenters]
  · rfl

theorem clearEvents_presenters (s : EventsPresenter) (b : Bool) :
    (clearEvents s b).waypointPresenters = [] := by
  unfold clearEvents
  dsimp only
  split <;> rfl

theorem renderWaypoint_pres (s : EventsPresenter) (point : Waypoint) (l : List Destination)
    (d : Option Destination) (o : List Offer) :
    Pres s.waypointPresenters (renderWaypoint s point l d o).waypointPresenters := by
  unfold renderWaypoint
  dsimp only
  constructor
  · intro hm
    apply wired_set _ _ hm
    rw [WaypointPresenter.init_resetWaypointsMode]
    rfl
  · apply countEditing_set_default
    rw [WaypointPresenter.init_mode]
    rfl

theorem foldl_renderWaypoint_pres (f : EventsPresenter → Waypoint → Option Destination)
    (g : EventsPresenter → Waypoint → List Offer) (l : List Destination)
    (points : List Waypoint) (s : EventsPresenter) :
    Pres s.waypointPresenters
      (points.foldl (fun acc point => renderWaypoint acc point l (f acc point) (g acc point))
        s).waypointPresenters := by
  induction points generalizing s with
  | nil => exact Pres.refl _
  | cons point points ih =>
    simp only [List.foldl_cons]
    exact Pres.trans (renderWaypoint_pres s point l _ _) (ih _)

theorem renderWaypoints_pres (U : Utils) (s : EventsPresenter) :
    Pres s.waypointPresenters (renderWaypoints U s).waypointPresenters := by
  unfold renderWaypoints
  dsimp only
  have h := foldl_renderWaypoint_pres
    (fun acc point => acc.tripModel.getDestinationById point.destination)
    (fun acc point => acc.tripModel.getOffersByType point.type)
    s.tripModel.destinations (waypoints U s).1 (waypoints U s).2
  rw [waypoints_presenters] at h
  exact h

theorem renderSorting_presenters (s : EventsPresenter) :
    (renderSorting s).waypointPresenters = s.waypointPresenters := rfl

theorem renderTripInfo_presenters (U : Utils) (s : EventsPresenter) :
    (renderTripInfo U s).state.waypointPresenters = s.waypointPresenters := by
  unfold renderTripInfo
  split <;> rfl

theorem andThen_pres {m : List (Nat × WaypointPresenter)} (o : Outcome)
    (f : EventsPresenter → Outcome) (h1 : Pres m o.state.waypointPresenters)
    (h2 : ∀ t, Pres t.waypointPresenters (f t).state.waypointPresenters) :
    Pres m (o.andThen f).state.waypointPresenters := by
  unfold Outcome.andThen
  split
  · exact Pres.trans h1 (h2 _)
  · exact h1

theorem call_isError (s : EventsPresenter) (c : Call) : (s.call c).isError = s.isError := rfl

theorem call_isLoading (s : EventsPresenter) (c : Call) : (s.call c).isLoading = s.isLoading :=
  rfl

theorem call_presenters (s : EventsPresenter) (c : Call) :
    (s.call c).waypointPresenters = s.waypointPresenters := rfl

theorem renderEvents_pres (U : Utils) (s : EventsPresenter) :
    Pres s.waypointPresenters (renderEvents U s).state.waypointPresenters := by
  unfold renderEvents
  cases hE : s.isError <;> cases hL : s.isLoading <;>
    simp only [hE, hL, call_isError, call_isLoading, if_true, if_false, Bool.or_self,
      Bool.or_true, Bool.true_or, Bool.false_eq_true]
  · split
    · apply Pres.of_eq
      simp only [done]
      rw [renderNoWaypoints_presenters, waypoints_presenters, call_presenters,
        renderNewWaypointButton_presenters]
    · apply andThen_pres
      · apply Pres.of_eq
        rw [renderTripInfo_presenters, waypoints_presenters, call_presenters,
          renderNewWaypointButton_presenters]
      · intro t
        simp only [done]
        exact Pres.trans (Pres.of_eq (renderSorting_presenters t)) (renderWaypoints_pres U _)
  · apply Pres.of_eq
    simp only [done]
    rw [renderNewWaypointButton_presenters]
    rfl
  · apply Pres.of_eq
    simp only [done]
    rw [renderNewWaypointButton_presenters]
    rfl
  · apply Pres.of_eq
    simp only [done]
    rw [renderNewWaypointButton_presenters]
    rfl

end EventsPresenter

namespace EventsPresenter

theorem pres_nil (m : List (Nat × WaypointPresenter)) : Pres m [] :=
  ⟨fun _ => wired_nil, Nat.zero_le _⟩

theorem clearEvents_pres (s : EventsPresenter) (b : Bool) :
    Pres s.waypointPresenters (clearEvents s b).waypointPresenters := by
  rw [clearEvents_presenters]
  exact pres_nil _

theorem updateWaypointPresentersData_pres (s : EventsPresenter) (w : Option Waypoint) :
    Pres s.waypointPresenters (updateWaypointPresentersData s w).state.waypointPresenters := by
  unfold updateWaypointPresentersData
  cases w with
  | none => exact Pres.refl _
  | some w =>
    dsimp only
    cases hp : Map.get s.waypointPresenters w.id with
    | none => exact Pres.refl _
    | some p =>
      dsimp only [done]
      constructor
      · intro hm
        apply wired_set _ _ hm
        rw [WaypointPresenter.init_resetWaypointsMode]
        exact wired_of_get hm hp
      · apply le_of_eq
        apply countEditing_set_same _ _ p _ hp
        rw [WaypointPresenter.init_mode]

theorem handleModelEvent_pres (U : Utils) (u : UpdateType) (w : Option Waypoint)
    (s : EventsPresenter) :
    Pres s.waypointPresenters (handleModelEvent U u w s).state.waypointPresenters := by
  cases u with
  | PATCH => exact updateWaypointPresentersData_pres s w
  | MINOR => exact Pres.trans (clearEvents_pres s false) (renderEvents_pres U _)
  | MAJOR => exact Pres.trans (clearEvents_pres s true) (renderEvents_pres U _)
  | INIT =>
    exact renderEvents_pres U
      ({ s with isLoading := false }.call (Call.remove (some Node.loading)))
  | ERROR =>
    have h1 : Pres s.waypointPresenters
        (clearEvents { s with isError := true } false).waypointPresenters :=
      clearEvents_pres { s with isError := true } false
    exact Pres.trans h1 (renderEvents_pres U _)

theorem setFilter_pres (U : Utils) (u : UpdateType) (f : FilterType) (s : EventsPresenter) :
    Pres s.waypointPresenters (setFilter U u f s).state.waypointPresenters :=
  handleModelEvent_pres U u none
    ({ s with filterModel := f }.call (Call.setFilter u f))

theorem createWaypoint_pres (U : Utils) (s : EventsPresenter) :
    Pres s.waypointPresenters (createWaypoint U s).state.waypointPresenters := by
  unfold createWaypoint
  apply andThen_pres
  · exact setFilter_pres U _ _ { s with currentSort := SortType.DAY }
  · intro t
    exact Pres.refl _

theorem onNewWaypointButtonClick_pres (U : Utils) (s : EventsPresenter) :
    Pres s.waypointPresenters (onNewWaypointButtonClick U s).state.waypointPresenters := by
  unfold onNewWaypointButtonClick
  apply andThen_pres
  · exact createWaypoint_pres U s
  · intro t
    apply Pres.of_eq
    simp only [done]
    rw [renderNewWaypointButton_presenters]

theorem applySort_pres (U : Utils) (sortType : SortType) (s : EventsPresenter) :
    Pres s.waypointPresenters (applySort U sortType s).state.waypointPresenters := by
  unfold applySort
  split
  · exact Pres.refl _
  · exact Pres.trans (clearEvents_pres { s with currentSort := sortType } false)
      (renderEvents_pres U _)

theorem callOnPresenter_setSaving (s : EventsPresenter) (id : Nat) :
    (callOnPresenter s id WaypointPresenter.setSaving).state = s := by
  unfold callOnPresenter
  split <;> rfl

theorem callOnPresenter_setDeleting (s : EventsPresenter) (id : Nat) :
    (callOnPresenter s id WaypointPresenter.setDeleting).state = s := by
  unfold callOnPresenter
  split <;> rfl

theorem callOnPresenter_setAborting (s : EventsPresenter) (id : Nat) :
    (callOnPresenter s id WaypointPresenter.setAborting).state = s := by
  unfold callOnPresenter
  split <;> rfl

theorem markNewWaypointPresenter_presenters (s : EventsPresenter) (a : PendingActionState) :
    (markNewWaypointPresenter s a).state.waypointPresenters = s.waypointPresenters := by
  unfold markNewWaypointPresenter
  split <;> rfl

theorem handleViewActionBegin_pres (a : UserAction) (u : UpdateType) (w : Waypoint)
    (s : EventsPresenter) :
    Pres s.waypointPresenters (handleViewActionBegin a u w s).state.waypointPresenters := by
  unfold handleViewActionBegin
  cases a <;> dsimp only <;> apply andThen_pres
  · rw [callOnPresenter_setSaving]; exact Pres.refl _
  · intro t; exact Pres.refl _
  · rw [markNewWaypointPresenter_presenters]; exact Pres.refl _
  · intro t; exact Pres.refl _
  · rw [callOnPresenter_setDeleting]; exact Pres.refl _
  · intro t; exact Pres.refl _

theorem storeSettle_pres (U : Utils) (u : UpdateType) (w : Waypoint) (r : StoreResult)
    (s : EventsPresenter) :
    Pres s.waypointPresenters (storeSettle U u w r s).state.waypointPresenters := by
  cases r with
  | rejected => exact Pres.refl _
  | resolved tripModel => exact handleModelEvent_pres U u (some w) { s with tripModel := tripModel }

theorem handleViewActionResume_pres (U : Utils) (a : UserAction) (w : Waypoint) (o : Outcome) :
    Pres o.state.waypointPresenters
      (handleViewActionResume U a w o).state.waypointPresenters := by
  unfold handleViewActionResume
  cases a <;> dsimp only <;> apply andThen_pres
  · split
    · exact Pres.refl _
    · rw [callOnPresenter_setAborting]; exact Pres.refl _
  · intro t; exact Pres.refl _
  · split
    · apply Pres.of_eq
      simp only [done]
      rw [destroyNewWaypointPresenter_presenters]
    · rw [markNewWaypointPresenter_presenters]; exact Pres.refl _
  · intro t; exact Pres.refl _
  · split
    · exact Pres.refl _
    · rw [callOnPresenter_setAborting]; exact Pres.refl _
  · intro t; exact Pres.refl _

theorem handleViewAction_pres (U : Utils) (a : UserAction) (u : UpdateType) (w : Waypoint)
    (r : StoreResult) (s : EventsPresenter) :
    Pres s.waypointPresenters (handleViewAction U a u w r s).state.waypointPresenters := by
  unfold handleViewAction
  apply andThen_pres
  · exact handleViewActionBegin_pres a u w s
  · intro t
    exact Pres.trans (storeSettle_pres U u w r t) (handleViewActionResume_pres U a w _)

theorem resetWaypointsMode_pres (U : Utils) (s : EventsPresenter) :
    Pres s.waypointPresenters (resetWaypointsMode U s).waypointPresenters := by
  rw [resetWaypointsMode_presenters]
  exact ⟨resetAll_wired _ _, by rw [resetAll_count]; exact Nat.zero_le _⟩

theorem invoke_pres (U : Utils) (h : Handler) (s : EventsPresenter) :
    Pres s.waypointPresenters (invoke U h s).waypointPresenters := by
  cases h with
  | handleViewAction => exact Pres.refl _
  | resetWaypointsMode => exact resetWaypointsMode_pres U s
  | handleDestinationUpdate => exact Pres.refl _
  | handleOffersUpdate => exact Pres.refl _

theorem onKeydown_pres (b : Bool) (s : EventsPresenter) :
    Pres s.waypointPresenters (onKeydown b s).waypointPresenters :=
  dispatchKeydown_pres _ _ _ _

theorem onFormSubmit_pres (id : Nat) (s : EventsPresenter) :
    Pres s.waypointPresenters (onFormSubmit id s).waypointPresenters := by
  unfold onFormSubmit
  cases hp : Map.get s.waypointPresenters id with
  | none => exact Pres.refl _
  | some p =>
    dsimp only
    constructor
    · intro hm
      exact wired_set _ _ hm (wired_of_get hm hp :)
    · exact countEditing_set_default _ _ _ rfl

theorem onFavoriteClick_pres (U : Utils) (id : Nat) (s : EventsPresenter) :
    Pres s.waypointPresenters (onFavoriteClick U id s).state.waypointPresenters := by
  unfold onFavoriteClick
  split
  · exact Pres.refl _
  · split
    · exact Pres.refl _
    · split
      · exact Pres.refl _
      · exact invoke_pres U _ s

theorem setMode_wired (m : List (Nat × WaypointPresenter)) (id : Nat) (mode : Mode)
    (hm : Wired m) : Wired (setMode m id mode) := by
  unfold setMode
  cases hp : Map.get m id with
  | none => exact hm
  | some q => exact wired_set _ _ hm (wired_of_get hm hp :)

theorem setMode_count (m : List (Nat × WaypointPresenter)) (id : Nat) (mode : Mode) :
    countEditing (setMode m id mode) ≤ countEditing m + 1 := by
  unfold setMode
  cases Map.get m id with
  | none => exact Nat.le_succ _
  | some q => exact countEditing_set_le _ _ _

/-- After an edit request on a wired map at most one presenter is editing. -/
theorem onEditClick_inv (U : Utils) (id : Nat) (s : EventsPresenter)
    (hm : Wired s.waypointPresenters) (hc : countEditing s.waypointPresenters ≤ 1) :
    Wired (onEditClick U id s).state.waypointPresenters ∧
      countEditing (onEditClick U id s).state.waypointPresenters ≤ 1 := by
  unfold onEditClick
  cases hp : Map.get s.waypointPresenters id with
  | none => exact ⟨hm, hc⟩
  | some p =>
    dsimp only
    rw [wired_of_get hm hp]
    dsimp only [done, invoke]
    constructor
    · apply setMode_wired
      rw [resetWaypointsMode_presenters]
      exact resetAll_wired _ _ hm
    · refine le_trans (setMode_count _ _ _) ?_
      rw [resetWaypointsMode_presenters, resetAll_count]

end EventsPresenter

/-- In a well-wired state with at most one editing presenter, one event leads to such a
state. -/
theorem step_inv (U : Utils) (s : EventsPresenter) (e : Event)
    (hm : Wired s.waypointPresenters) (hc : countEditing s.waypointPresenters ≤ 1) :
    Wired (step U s e).waypointPresenters ∧
      countEditing (step U s e).waypointPresenters ≤ 1 := by
  have key : ∀ m' : List (Nat × WaypointPresenter), Pres s.waypointPresenters m' →
      Wired m' ∧ countEditing m' ≤ 1 := fun m' h => ⟨h.1 hm, le_trans h.2 hc⟩
  cases e with
  | init => exact key _ (EventsPresenter.renderEvents_pres U s)
  | editClick id => exact EventsPresenter.onEditClick_inv U id s hm hc
  | keydown b => exact key _ (EventsPresenter.onKeydown_pres b s)
  | formSubmit id => exact key _ (EventsPresenter.onFormSubmit_pres id s)
  | favoriteClick id => exact key _ (EventsPresenter.onFavoriteClick_pres U id s)
  | resetWaypointsMode => exact key _ (EventsPresenter.resetWaypointsMode_pres U s)
  | notify u w tripModel filterModel =>
    exact key _ (EventsPresenter.handleModelEvent_pres U u w
      { s with tripModel := tripModel, filterModel := filterModel })
  | applySort sortType => exact key _ (EventsPresenter.applySort_pres U sortType s)
  | newWaypointButtonClick => exact key _ (EventsPresenter.onNewWaypointButtonClick_pres U s)
  | closeNewWaypoint =>
    exact key _ (Pres.of_eq (EventsPresenter.destroyNewWaypointPresenter_presenters U s))
  | viewAction a u w r => exact key _ (EventsPresenter.handleViewAction_pres U a u w r s)

theorem run_inv (U : Utils) (events : List Event) (s : EventsPresenter)
    (hm : Wired s.waypointPresenters) (hc : countEditing s.waypointPresenters ≤ 1) :
    Wired (run U s events).waypointPresenters ∧
      countEditing (run U s events).waypointPresenters ≤ 1 := by
  induction events generalizing s with
  | nil => exact ⟨hm, hc⟩
  | cons e events ih =>
    have h := step_inv U s e hm hc
    exact ih (step U s e) h.1 h.2

/-- C1. Mutual exclusion of edit mode: in every state that a coordinator reaches from its
initial state by any sequence of events (edit requests, Escape and other keydowns, form
submissions, coordinator resets, notifications of every kind, and the remaining user input),
at most one presenter of the map is in `EDITING` mode. -/
theorem editing_mutual_exclusion (U : Utils) (tripModel : TripModel) (filterModel : FilterType)
    (events : List Event) :
    (run U (EventsPresenter.create tripModel filterModel) events).editingCount ≤ 1 :=
  (run_inv U events (EventsPresenter.create tripModel filterModel) wired_nil
    (Nat.zero_le _)).2

/-- The bound of the mutual exclusion is attained: after a load and two edit requests exactly
one presenter is editing, the one of the second request. -/
theorem editing_one_reached :
    (run demoUtils demoLoaded [Event.editClick 10, Event.editClick 20]).editingCount = 1 ∧
      ((run demoUtils demoLoaded [Event.editClick 10, Event.editClick 20]).waypointPresenters.map
        (fun e => (e.1, e.2.mode))) = [(10, Mode.DEFAULT), (20, Mode.EDITING)] := by
  decide

/-! ## Patch notifications -/

theorem mapSet_keys {α : Type} (m : List (Nat × α)) (k : Nat) (p v : α)
    (hp : Map.get m k = some p) : (Map.set m k v).map Prod.fst = m.map Prod.fst := by
  induction m with
  | nil => simp [Map.get] at hp
  | cons e m ih =>
    obtain ⟨k', q⟩ := e
    by_cases h : k' = k
    · simp [Map.set, h]
    · simp [Map.get, h] at hp
      simp [Map.set, h, ih hp]

theorem mapGet_set_ne {α : Type} (m : List (Nat × α)) (k id : Nat) (v : α) (h : id ≠ k) :
    Map.get (Map.set m k v) id = Map.get m id := by
  induction m with
  | nil => simp [Map.set, Map.get, Ne.symm h]
  | cons e m ih =>
    obtain ⟨k', q⟩ := e
    by_cases hk : k' = k
    · subst hk
      simp [Map.set, Map.get, Ne.symm h]
    · by_cases hi : k' = id
      · subst hi
        simp [Map.set, Map.get, hk]
      · simp [Map.set, Map.get, hk, hi, ih]

theorem mapGet_set_self {α : Type} (m : List (Nat × α)) (k : Nat) (v : α) :
    Map.get (Map.set m k v) k = some v := by
  induction m with
  | nil => simp [Map.set, Map.get]
  | cons e m ih =>
    obtain ⟨k', q⟩ := e
    by_cases hk : k' = k
    · simp [Map.set, Map.get, hk]
    · simp [Map.set, Map.get, hk, ih]

theorem mapSet_modes (m : List (Nat × WaypointPresenter)) (k : Nat) (p v : WaypointPresenter)
    (hp : Map.get m k = some p) (hu : v.uid = p.uid) (hv : v.mode = p.mode) :
    (Map.set m k v).map (fun e => (e.1, e.2.uid, e.2.mode))
      = m.map (fun e => (e.1, e.2.uid, e.2.mode)) := by
  induction m with
  | nil => simp [Map.get] at hp
  | cons e m ih =>
    obtain ⟨k', q⟩ := e
    by_cases h : k' = k
    · simp [Map.get, h] at hp
      subst hp
      simp [Map.set, h, hu, hv]
    · simp [Map.get, h] at hp
      simp [Map.set, h, ih hp]

theorem WaypointPresenter.init_world (p : WaypointPresenter) (a : InitArgs) (w : World) :
    (p.init a w).2.keydownListeners = w.keydownListeners ∧
      (p.init a w).2.nextUid = w.nextUid ∧
      ∃ calls, (p.init a w).2.log = w.log ++ calls ∧ ∀ c ∈ calls, c.onlyTouches p.uid := by
  unfold WaypointPresenter.init
  dsimp only
  have hv : ∀ (q : WaypointPresenter), q.uid = p.uid → ∀ x ∈ q.viewNode, x.owner = some p.uid := by
    intro q hq x hx
    simp only [WaypointPresenter.viewNode, Option.mem_def, Option.map_eq_some'] at hx
    obtain ⟨v, _, rfl⟩ := hx
    exact congrArg some hq
  have hf : ∀ (q : WaypointPresenter), q.uid = p.uid → ∀ x ∈ q.formNode, x.owner = some p.uid := by
    intro q hq x hx
    simp only [WaypointPresenter.formNode, Option.mem_def, Option.map_eq_some'] at hx
    obtain ⟨v, _, rfl⟩ := hx
    exact congrArg some hq
  split
  · refine ⟨rfl, rfl, [_], rfl, ?_⟩
    intro c hc
    rw [List.mem_singleton] at hc
    subst hc
    exact hv _ rfl
  · cases hm : p.mode with
    | DEFAULT =>
      refine ⟨rfl, rfl,
        [Call.replace (some (Node.waypoint p.uid ⟨a.point, a.offersList, a.destination⟩))
          p.viewNode, Call.remove p.viewNode, Call.remove p.formNode], ?_, ?_⟩
      · simp [World.call, WaypointPresenter.viewNode]
      · intro c hc
        simp only [List.mem_cons, List.mem_singleton, List.not_mem_nil, or_false] at hc
        rcases hc with rfl | rfl | rfl
        · refine ⟨?_, hv p rfl⟩
          intro x hx
          cases hx
          rfl
        · exact hv p rfl
        · exact hf p rfl
    | EDITING =>
      refine ⟨rfl, rfl,
        [Call.replace (some (Node.editForm p.uid
            ⟨a.point, a.offersList, a.destination, a.destinationsList⟩))
          p.formNode, Call.remove p.viewNode, Call.remove p.formNode], ?_, ?_⟩
      · simp [World.call, WaypointPresenter.formNode]
      · intro c hc
        simp only [List.mem_cons, List.mem_singleton, List.not_mem_nil, or_false] at hc
        rcases hc with rfl | rfl | rfl
        · refine ⟨?_, hf p rfl⟩
          intro x hx
          cases hx
          rfl
        · exact hv p rfl
        · exact hf p rfl

/-- The presenter after `init`: the data and both representations are those of the argument,
every other field is as before. -/
theorem WaypointPresenter.init_fields (p : WaypointPresenter) (a : InitArgs) (w : World) :
    (p.init a w).1 = { p with
      point := some a.point
      destinationsList := some a.destinationsList
      destination := a.destination
      offersList := some a.offersList
      waypointComponent := some ⟨a.point, a.offersList, a.destination⟩
      waypointEditComponent :=
        some ⟨a.point, a.offersList, a.destination, a.destinationsList⟩ } := by
  unfold WaypointPresenter.init
  dsimp only
  split <;> rfl

/-- The first `init` of a presenter renders its new read-only view. -/
theorem WaypointPresenter.init_log_first (p : WaypointPresenter) (a : InitArgs) (w : World)
    (h : p.waypointComponent = none ∨ p.waypointEditComponent = none) :
    (p.init a w).2.log = w.log
      ++ [Call.render (some (Node.waypoint p.uid ⟨a.point, a.offersList, a.destination⟩))] := by
  unfold WaypointPresenter.init
  dsimp only
  rw [if_pos]
  · rfl
  · rcases h with h | h <;> simp [WaypointPresenter.viewNode, WaypointPresenter.formNode, h]

/-- A later `init` of a presenter in `DEFAULT` mode puts the new read-only view in the place of
the previous one and removes both previous representations. -/
theorem WaypointPresenter.init_log_default (p : WaypointPresenter) (a : InitArgs) (w : World)
    (v : WaypointView) (e : EditWaypointView) (hv : p.waypointComponent = some v)
    (he : p.waypointEditComponent = some e) (hm : p.mode = Mode.DEFAULT) :
    (p.init a w).2.log = w.log
      ++ [Call.replace (some (Node.waypoint p.uid ⟨a.point, a.offersList, a.destination⟩))
            (some (Node.waypoint p.uid v)),
          Call.remove (some (Node.waypoint p.uid v)),
          Call.remove (some (Node.editForm p.uid e))] := by
  unfold WaypointPresenter.init
  simp [WaypointPresenter.viewNode, WaypointPresenter.formNode, hv, he, hm, World.call]

/-- A later `init` of a presenter in `EDITING` mode puts the new edit form in the place of the
previous one and removes both previous representations. -/
theorem WaypointPresenter.init_log_editing (p : WaypointPresenter) (a : InitArgs) (w : World)
    (v : WaypointView) (e : EditWaypointView) (hv : p.waypointComponent = some v)
    (he : p.waypointEditComponent = some e) (hm : p.mode = Mode.EDITING) :
    (p.init a w).2.log = w.log
      ++ [Call.replace
            (some (Node.editForm p.uid
              ⟨a.point, a.offersList, a.destination, a.destinationsList⟩))
            (some (Node.editForm p.uid e)),
          Call.remove (some (Node.waypoint p.uid v)),
          Call.remove (some (Node.editForm p.uid e))] := by
  unfold WaypointPresenter.init
  simp [WaypointPresenter.viewNode, WaypointPresenter.formNode, hv, he, hm, World.call]

/-- C2. Patch is a targeted refresh. For every coordinator state `s` and waypoint `w`, the
handling of a `PATCH` notification carrying `w` leaves the key sequence of the presenter map,
the identity and mode of every presenter, `#currentSort`, the keydown listeners and the
presenter allocator unchanged, and leaves every presenter stored under another id exactly as it
was. If a presenter `p` is stored under `w.id`, the handler completes normally and the
presenter stored under `w.id` afterwards is `p` with its data replaced by `w` and the store's
reference data for `w`: its point is `w`, both of its representations are built from `w`, and
its identity, mode and callbacks are those of `p`. The calls added to the log are exactly the
mounting of the new representation of that presenter: the render of its new view on a first
initialisation, otherwise the replacement of the representation matching its mode by the new
one followed by the removal of its two previous representations; so every added call is a
rendering primitive on the nodes of `p` alone (no other presenter is destroyed, created or
re-initialised). If none is stored there, the lookup throws and nothing at all is changed. -/
theorem patch_targeted_refresh (U : Utils) (s : EventsPresenter) (w : Waypoint) :
    ((EventsPresenter.handleModelEvent U UpdateType.PATCH (some w) s).state.waypointPresenters.map
        Prod.fst = s.waypointPresenters.map Prod.fst) ∧
    ((EventsPresenter.handleModelEvent U UpdateType.PATCH (some w) s).state.waypointPresenters.map
        (fun e => (e.1, e.2.uid, e.2.mode))
      = s.waypointPresenters.map (fun e => (e.1, e.2.uid, e.2.mode))) ∧
    (∀ id, id ≠ w.id →
      Map.get (EventsPresenter.handleModelEvent U UpdateType.PATCH (some w) s).state.waypointPresenters
        id = Map.get s.waypointPresenters id) ∧
    ((EventsPresenter.handleModelEvent U UpdateType.PATCH (some w) s).state.currentSort
      = s.currentSort) ∧
    ((EventsPresenter.handleModelEvent U UpdateType.PATCH (some w) s).state.world.keydownListeners
      = s.world.keydownListeners) ∧
    ((EventsPresenter.handleModelEvent U UpdateType.PATCH (some w) s).state.world.nextUid
      = s.world.nextUid) ∧
    (∀ p, Map.get s.waypointPresenters w.id = some p →
      (EventsPresenter.handleModelEvent U UpdateType.PATCH (some w) s).thrown = none ∧
      Map.get (EventsPresenter.handleModelEvent U UpdateType.PATCH (some w) s).state.waypointPresenters
        w.id = some { p with
          point := some w
          destinationsList := some s.tripModel.destinations
          destination := s.tripModel.getDestinationById w.destination
          offersList := some (s.tripModel.getOffersByType w.type)
          waypointComponent := some ⟨w, s.tripModel.getOffersByType w.type,
            s.tripModel.getDestinationById w.destination⟩
          waypointEditComponent := some ⟨w, s.tripModel.getOffersByType w.type,
            s.tripModel.getDestinationById w.destination, s.tripModel.destinations⟩ } ∧
      (p.waypointComponent = none ∨ p.waypointEditComponent = none →
        (EventsPresenter.handleModelEvent U UpdateType.PATCH (some w) s).state.world.log
          = s.world.log
            ++ [Call.render (some (Node.waypoint p.uid ⟨w, s.tripModel.getOffersByType w.type,
                  s.tripModel.getDestinationById w.destination⟩))]) ∧
      (∀ v e, p.waypointComponent = some v → p.waypointEditComponent = some e →
        p.mode = Mode.DEFAULT →
        (EventsPresenter.handleModelEvent U UpdateType.PATCH (some w) s).state.world.log
          = s.world.log
            ++ [Call.replace
                  (some (Node.waypoint p.uid ⟨w, s.tripModel.getOffersByType w.type,
                    s.tripModel.getDestinationById w.destination⟩))
                  (some (Node.waypoint p.uid v)),
                Call.remove (some (Node.waypoint p.uid v)),
                Call.remove (some (Node.editForm p.uid e))]) ∧
      (∀ v e, p.waypointComponent = some v → p.waypointEditComponent = some e →
        p.mode = Mode.EDITING →
        (EventsPresenter.handleModelEvent U UpdateType.PATCH (some w) s).state.world.log
          = s.world.log
            ++ [Call.replace
                  (some (Node.editForm p.uid ⟨w, s.tripModel.getOffersByType w.type,
                    s.tripModel.getDestinationById w.destination, s.tripModel.destinations⟩))
                  (some (Node.editForm p.uid e)),
                Call.remove (some (Node.waypoint p.uid v)),
                Call.remove (some (Node.editForm p.uid e))]) ∧
      ∃ calls, (EventsPresenter.handleModelEvent U UpdateType.PATCH (some w) s).state.world.log
          = s.world.log ++ calls ∧ ∀ c ∈ calls, c.onlyTouches p.uid) ∧
    (Map.get s.waypointPresenters w.id = none →
      (EventsPresenter.handleModelEvent U UpdateType.PATCH (some w) s).thrown
        = some JsError.typeError ∧
      (EventsPresenter.handleModelEvent U UpdateType.PATCH (some w) s).state = s) := by
  cases hp : Map.get s.waypointPresenters w.id with
  | none =>
    have ho : EventsPresenter.handleModelEvent U UpdateType.PATCH (some w) s
        = ⟨s, some JsError.typeError⟩ := by
      simp only [EventsPresenter.handleModelEvent, EventsPresenter.updateWaypointPresentersData,
        hp, EventsPresenter.typeError]
    rw [ho]
    refine ⟨rfl, rfl, fun _ _ => rfl, rfl, rfl, rfl, ?_, fun _ => ⟨rfl, rfl⟩⟩
    intro p h
    cases h
  | some p =>
    have hw := WaypointPresenter.init_world p ⟨w, s.tripModel.destinations,
      s.tripModel.getDestinationById w.destination, s.tripModel.getOffersByType w.type⟩ s.world
    have hf := WaypointPresenter.init_fields p ⟨w, s.tripModel.destinations,
      s.tripModel.getDestinationById w.destination, s.tripModel.getOffersByType w.type⟩ s.world
    have ho : EventsPresenter.handleModelEvent U UpdateType.PATCH (some w) s
        = ⟨{ s with
            waypointPresenters := Map.set s.waypointPresenters w.id
              (p.init ⟨w, s.tripModel.destinations, s.tripModel.getDestinationById w.destination,
                s.tripModel.getOffersByType w.type⟩ s.world).1
            world := (p.init ⟨w, s.tripModel.destinations,
              s.tripModel.getDestinationById w.destination,
              s.tripModel.getOffersByType w.type⟩ s.world).2 }, none⟩ := by
      simp only [EventsPresenter.handleModelEvent, EventsPresenter.updateWaypointPresentersData,
        hp, EventsPresenter.done]
    rw [ho]
    refine ⟨mapSet_keys _ _ p _ hp, ?_, ?_, rfl, hw.1, hw.2.1, ?_, ?_⟩
    · exact mapSet_modes _ _ p _ hp (WaypointPresenter.init_uid _ _ _)
        (WaypointPresenter.init_mode _ _ _)
    · intro id hid
      exact mapGet_set_ne _ _ _ _ hid
    · intro q hq
      cases hq
      refine ⟨rfl, ?_, ?_, ?_, ?_, hw.2.2⟩
      · exact (mapGet_set_self _ _ _).trans (congrArg some hf)
      · intro h
        exact WaypointPresenter.init_log_first _ _ _ h
      · intro v e hv he hm
        exact WaypointPresenter.init_log_default _ _ _ v e hv he hm
      · intro v e hv he hm
        exact WaypointPresenter.init_log_editing _ _ _ v e hv he hm
    · intro h
      cases h

/-- C2 at the concrete store, for a patch that flips the favourite flag of waypoint 10: the
presenter stored under id 10 is in `DEFAULT` mode with both representations built; the handler
completes; afterwards that presenter holds the patched point and representations built from
it, with identity and mode as before; the calls made are the replacement of its read-only view
by the new one and the removal of its two previous representations; and the presenter stored
under id 20 is untouched. -/
theorem patch_targeted_refresh_witness :
    Map.get demoLoaded.waypointPresenters 10 = some demoPresenter ∧
      (EventsPresenter.handleModelEvent demoUtils UpdateType.PATCH
        (some { demoPoint 10 1 5 100 with isFavorite := true }) demoLoaded).thrown = none ∧
      Map.get (EventsPresenter.handleModelEvent demoUtils UpdateType.PATCH
        (some { demoPoint 10 1 5 100 with isFavorite := true })
        demoLoaded).state.waypointPresenters 10
        = some { demoPresenter with
            point := some { demoPoint 10 1 5 100 with isFavorite := true }
            waypointComponent := some ⟨{ demoPoint 10 1 5 100 with isFavorite := true }, [],
              some ⟨1, "Amsterdam", ""⟩⟩
            waypointEditComponent := some ⟨{ demoPoint 10 1 5 100 with isFavorite := true }, [],
              some ⟨1, "Amsterdam", ""⟩, demoDestinations⟩ } ∧
      (EventsPresenter.handleModelEvent demoUtils UpdateType.PATCH
        (some { demoPoint 10 1 5 100 with isFavorite := true }) demoLoaded).state.world.log
        = demoLoaded.world.log
          ++ [Call.replace
                (some (Node.waypoint 0 ⟨{ demoPoint 10 1 5 100 with isFavorite := true }, [],
                  some ⟨1, "Amsterdam", ""⟩⟩))
                (some (Node.waypoint 0 ⟨demoPoint 10 1 5 100, [], some ⟨1, "Amsterdam", ""⟩⟩)),
              Call.remove
                (some (Node.waypoint 0 ⟨demoPoint 10 1 5 100, [], some ⟨1, "Amsterdam", ""⟩⟩)),
              Call.remove
                (some (Node.editForm 0 ⟨demoPoint 10 1 5 100, [], some ⟨1, "Amsterdam", ""⟩,
                  demoDestinations⟩))] ∧
      Map.get (EventsPresenter.handleModelEvent demoUtils UpdateType.PATCH
        (some { demoPoint 10 1 5 100 with isFavorite := true })
        demoLoaded).state.waypointPresenters 20
        = Map.get demoLoaded.waypointPresenters 20 :=
  have hp : Map.get demoLoaded.waypointPresenters 10 = some demoPresenter := by decide
  have h := patch_targeted_refresh demoUtils demoLoaded
    { demoPoint 10 1 5 100 with isFavorite := true }
  ⟨hp, (h.2.2.2.2.2.2.1 demoPresenter hp).1, (h.2.2.2.2.2.2.1 demoPresenter hp).2.1,
    (h.2.2.2.2.2.2.1 demoPresenter hp).2.2.2.1 _ _ rfl rfl rfl, h.2.2.1 20 (by decide)⟩

/-! ## The error phase -/

theorem EventsPresenter.renderNewWaypointButton_fields (s : EventsPresenter) :
    (EventsPresenter.renderNewWaypointButton s).isError = s.isError ∧
      (EventsPresenter.renderNewWaypointButton s).NewWaypointButtonMode
        = s.NewWaypointButtonMode ∧
      (EventsPresenter.renderNewWaypointButton s).newWaypointButtonComponent
        = some s.NewWaypointButtonMode := by
  unfold EventsPresenter.renderNewWaypointButton
  cases s.newWaypointButtonComponent <;> exact ⟨rfl, rfl, rfl⟩

theorem EventsPresenter.clearEvents_isError (s : EventsPresenter) (b : Bool) :
    (EventsPresenter.clearEvents s b).isError = s.isError := by
  unfold EventsPresenter.clearEvents
  dsimp only
  split <;> rfl

theorem EventsPresenter.renderEvents_of_isError (U : Utils) (s : EventsPresenter)
    (h : s.isError = true) (hm : s.waypointPresenters = []) :
    ErrorPhase (EventsPresenter.renderEvents U s).state := by
  have hf := EventsPresenter.renderNewWaypointButton_fields
  have hp := EventsPresenter.renderNewWaypointButton_presenters
  unfold EventsPresenter.renderEvents
  cases hL : s.isLoading <;>
    simp only [h, hL, EventsPresenter.call_isError, EventsPresenter.call_isLoading, if_true,
      if_false, Bool.or_self, Bool.or_true, Bool.true_or, Bool.false_eq_true,
      EventsPresenter.done] <;>
    unfold ErrorPhase <;>
    refine ⟨?_, ?_, ?_, ?_⟩
  · rw [(hf _).1]
  · rw [hp]; exact hm
  · rw [(hf _).2.1]
  · rw [(hf _).2.2]
  · rw [(hf _).1]
  · rw [hp]; exact hm
  · rw [(hf _).2.1]
  · rw [(hf _).2.2]

theorem EventsPresenter.handleModelEvent_error (U : Utils) (w : Option Waypoint)
    (s : EventsPresenter) :
    ErrorPhase (EventsPresenter.handleModelEvent U UpdateType.ERROR w s).state := by
  apply EventsPresenter.renderEvents_of_isError
  · rw [EventsPresenter.clearEvents_isError]
  · exact EventsPresenter.clearEvents_presenters _ _

theorem EventsPresenter.handleModelEvent_errorPhase (U : Utils) (u : UpdateType)
    (w : Option Waypoint) (s : EventsPresenter) (h : ErrorPhase s) :
    ErrorPhase (EventsPresenter.handleModelEvent U u w s).state := by
  cases u with
  | PATCH =>
    have hs : (EventsPresenter.handleModelEvent U UpdateType.PATCH w s).state = s := by
      simp only [EventsPresenter.handleModelEvent, EventsPresenter.updateWaypointPresentersData]
      cases w with
      | none => rfl
      | some w =>
        simp only [h.2.1, Map.get]
        rfl
    rw [hs]
    exact h
  | MINOR =>
    apply EventsPresenter.renderEvents_of_isError
    · rw [EventsPresenter.clearEvents_isError]; exact h.1
    · exact EventsPresenter.clearEvents_presenters _ _
  | MAJOR =>
    apply EventsPresenter.renderEvents_of_isError
    · rw [EventsPresenter.clearEvents_isError]; exact h.1
    · exact EventsPresenter.clearEvents_presenters _ _
  | INIT =>
    apply EventsPresenter.renderEvents_of_isError
    · exact h.1
    · exact h.2.1
  | ERROR => exact EventsPresenter.handleModelEvent_error U w s

theorem run_notifications_errorPhase (U : Utils) (later : List Notification)
    (s : EventsPresenter) (h : ErrorPhase s) :
    ErrorPhase (run U s (later.map Notification.toEvent)) := by
  induction later generalizing s with
  | nil => exact h
  | cons n later ih =>
    apply ih
    exact EventsPresenter.handleModelEvent_errorPhase U n.updateType n.payload
      { s with tripModel := n.tripModel, filterModel := n.filterModel } h

/-- C6. The error phase is terminal. For every coordinator state, after the handling of an
`ERROR` notification the presenter map is empty and the creation button is disabled (in
`#NewWaypointButtonMode` and in the rendered button), and this is still so after every later
sequence of notifications of any kind, whatever the two models hold when each one is
delivered. -/
theorem error_phase_terminal (U : Utils) (s : EventsPresenter) (w : Option Waypoint)
    (later : List Notification) :
    (run U (EventsPresenter.handleModelEvent U UpdateType.ERROR w s).state
        (later.map Notification.toEvent)).waypointPresenters = [] ∧
      (run U (EventsPresenter.handleModelEvent U UpdateType.ERROR w s).state
        (later.map Notification.toEvent)).NewWaypointButtonMode
        = NewWaypointButtonMode.DISABLED ∧
      (run U (EventsPresenter.handleModelEvent U UpdateType.ERROR w s).state
        (later.map Notification.toEvent)).newWaypointButtonComponent
        = some NewWaypointButtonMode.DISABLED :=
  (run_notifications_errorPhase U later _
    (EventsPresenter.handleModelEvent_error U w s)).2

/-! ## What rendering leaves alone -/

theorem EventsPresenter.clearEvents_newWaypointPresenter (s : EventsPresenter) (b : Bool) :
    (s.clearEvents b).newWaypointPresenter = s.newWaypointPresenter := by
  unfold EventsPresenter.clearEvents
  dsimp only
  split <;> rfl

theorem EventsPresenter.call_kept (s : EventsPresenter) (c : Call) :
    (s.call c).kept = s.kept := rfl

theorem EventsPresenter.renderNewWaypointButton_kept (s : EventsPresenter) :
    s.renderNewWaypointButton.kept = s.kept := by
  unfold EventsPresenter.renderNewWaypointButton
  cases s.newWaypointButtonComponent <;> rfl

theorem EventsPresenter.renderNoWaypoints_kept (s : EventsPresenter) :
    s.renderNoWaypoints.kept = s.kept := rfl

theorem EventsPresenter.waypoints_kept (U : Utils) (s : EventsPresenter) :
    (s.waypoints U).2.kept = s.kept := by
  unfold EventsPresenter.waypoints
  dsimp only
  split <;> rfl

theorem EventsPresenter.foldl_renderWaypoint_kept
    (f : EventsPresenter → Waypoint → Option Destination)
    (g : EventsPresenter → Waypoint → List Offer) (l : List Destination)
    (points : List Waypoint) (s : EventsPresenter) :
    (points.foldl (fun acc point => acc.renderWaypoint point l (f acc point) (g acc point))
      s).kept = s.kept := by
  induction points generalizing s with
  | nil => rfl
  | cons point points ih =>
    simp only [List.foldl_cons]
    rw [ih]
    rfl

theorem EventsPresenter.renderWaypoints_kept (U : Utils) (s : EventsPresenter) :
    (s.renderWaypoints U).kept = s.kept := by
  unfold EventsPresenter.renderWaypoints
  dsimp only
  rw [EventsPresenter.foldl_renderWaypoint_kept, EventsPresenter.waypoints_kept]

theorem EventsPresenter.renderSorting_kept (s : EventsPresenter) :
    s.renderSorting.kept = s.kept := rfl

theorem EventsPresenter.renderTripInfo_kept (U : Utils) (s : EventsPresenter) :
    (s.renderTripInfo U).state.kept = s.kept := by
  unfold EventsPresenter.renderTripInfo
  split <;> rfl

theorem andThen_kept {k : Option NewWaypointPresenter × SortType} (o : Outcome)
    (f : EventsPresenter → Outcome) (h1 : o.state.kept = k)
    (h2 : ∀ t, (f t).state.kept = t.kept) : (o.andThen f).state.kept = k := by
  unfold Outcome.andThen
  split
  · rw [h2]; exact h1
  · exact h1

theorem EventsPresenter.renderEvents_kept (U : Utils) (s : EventsPresenter) :
    (s.renderEvents U).state.kept = s.kept := by
  unfold EventsPresenter.renderEvents
  cases hE : s.isError <;> cases hL : s.isLoading <;>
    simp only [hE, hL, EventsPresenter.call_isError, EventsPresenter.call_isLoading, if_true,
      if_false, Bool.or_self, Bool.or_true, Bool.true_or, Bool.false_eq_true]
  · split
    · simp only [EventsPresenter.done]
      rw [EventsPresenter.renderNoWaypoints_kept, EventsPresenter.waypoints_kept,
        EventsPresenter.call_kept, EventsPresenter.renderNewWaypointButton_kept]
      rfl
    · apply andThen_kept
      · rw [EventsPresenter.renderTripInfo_kept, EventsPresenter.waypoints_kept,
          EventsPresenter.call_kept, EventsPresenter.renderNewWaypointButton_kept]
        rfl
      · intro t
        simp only [EventsPresenter.done]
        rw [EventsPresenter.renderWaypoints_kept, EventsPresenter.renderSorting_kept]
  · simp only [EventsPresenter.done]
    rw [EventsPresenter.renderNewWaypointButton_kept]
    rfl
  · simp only [EventsPresenter.done]
    rw [EventsPresenter.renderNewWaypointButton_kept]
    rfl
  · simp only [EventsPresenter.done]
    rw [EventsPresenter.renderNewWaypointButton_kept]
    rfl

/-- For every state: the handling of a `MAJOR` notification resets the sort type and leaves
the creation presenter exactly as it was. -/
theorem EventsPresenter.handleModelEvent_major (U : Utils) (w : Option Waypoint)
    (s : EventsPresenter) :
    (EventsPresenter.handleModelEvent U UpdateType.MAJOR w s).state.currentSort = SortType.DAY ∧
      (EventsPresenter.handleModelEvent U UpdateType.MAJOR w s).state.newWaypointPresenter
        = s.newWaypointPresenter := by
  have h := EventsPresenter.renderEvents_kept U (s.clearEvents true)
  constructor
  · refine (congrArg Prod.snd h).trans ?_
    unfold EventsPresenter.clearEvents
    rfl
  · exact (congrArg Prod.fst h).trans (EventsPresenter.clearEvents_newWaypointPresenter s true)

theorem EventsPresenter.waypoints_button (U : Utils) (s : EventsPresenter) :
    (s.waypoints U).2.newWaypointButtonComponent = s.newWaypointButtonComponent := by
  unfold EventsPresenter.waypoints
  dsimp only
  split <;> rfl

theorem EventsPresenter.foldl_renderWaypoint_button
    (f : EventsPresenter → Waypoint → Option Destination)
    (g : EventsPresenter → Waypoint → List Offer) (l : List Destination)
    (points : List Waypoint) (s : EventsPresenter) :
    (points.foldl (fun acc point => acc.renderWaypoint point l (f acc point) (g acc point))
      s).newWaypointButtonComponent = s.newWaypointButtonComponent := by
  induction points generalizing s with
  | nil => rfl
  | cons point points ih =>
    simp only [List.foldl_cons]
    rw [ih]
    rfl

theorem EventsPresenter.renderWaypoints_button (U : Utils) (s : EventsPresenter) :
    (s.renderWaypoints U).newWaypointButtonComponent = s.newWaypointButtonComponent := by
  unfold EventsPresenter.renderWaypoints
  dsimp only
  rw [EventsPresenter.foldl_renderWaypoint_button, EventsPresenter.waypoints_button]

theorem EventsPresenter.clearEvents_isLoading (s : EventsPresenter) (b : Bool) :
    (s.clearEvents b).isLoading = s.isLoading := by
  unfold EventsPresenter.clearEvents
  dsimp only
  split <;> rfl

/-- For every state that is neither loading nor in error: a rebuild (`#clearEvents`, then
`#renderEvents`) leaves the creation presenter as it was and, unless the trip summary throws,
ends with an enabled creation button, whether or not a creation flow is open. -/
theorem EventsPresenter.rebuild_enables_button (U : Utils) (s : EventsPresenter) (b : Bool)
    (hE : s.isError = false) (hL : s.isLoading = false) :
    ((s.clearEvents b).renderEvents U).state.newWaypointPresenter = s.newWaypointPresenter ∧
      (((s.clearEvents b).renderEvents U).thrown = none →
        ((s.clearEvents b).renderEvents U).state.newWaypointButtonComponent
          = some BigTrip.NewWaypointButtonMode.ENABLED) := by
  refine ⟨(congrArg Prod.fst (EventsPresenter.renderEvents_kept U _)).trans
    (EventsPresenter.clearEvents_newWaypointPresenter s b), ?_⟩
  have hE2 : (s.clearEvents b).isError = false := by
    rw [EventsPresenter.clearEvents_isError]; exact hE
  have hL2 : (s.clearEvents b).isLoading = false := by
    rw [EventsPresenter.clearEvents_isLoading]; exact hL
  generalize s.clearEvents b = t at hE2 hL2
  unfold EventsPresenter.renderEvents
  simp only [hE2, hL2, EventsPresenter.call_isError, EventsPresenter.call_isLoading, if_false,
    Bool.or_self, Bool.false_eq_true]
  split
  · intro _
    simp only [EventsPresenter.done]
    rw [show ∀ x : EventsPresenter, x.renderNoWaypoints.newWaypointButtonComponent
      = x.newWaypointButtonComponent from fun _ => rfl, EventsPresenter.waypoints_button,
      show ∀ (x : EventsPresenter) (c : Call), (x.call c).newWaypointButtonComponent
      = x.newWaypointButtonComponent from fun _ _ => rfl,
      (EventsPresenter.renderNewWaypointButton_fields _).2.2]
  · unfold Outcome.andThen EventsPresenter.renderTripInfo
    split
    · rename_i ht
      split at ht
      · simp [EventsPresenter.typeError] at ht
      · intro _
        simp only [EventsPresenter.done]
        rw [EventsPresenter.renderWaypoints_button,
          show ∀ x : EventsPresenter, x.renderSorting.newWaypointButtonComponent
            = x.newWaypointButtonComponent from fun _ => rfl,
          show ∀ (x : EventsPresenter) (c : Call), (x.call c).newWaypointButtonComponent
            = x.newWaypointButtonComponent from fun _ _ => rfl]
        dsimp only
        rw [EventsPresenter.waypoints_button,
          show ∀ (x : EventsPresenter) (c : Call), (x.call c).newWaypointButtonComponent
            = x.newWaypointButtonComponent from fun _ _ => rfl,
          (EventsPresenter.renderNewWaypointButton_fields _).2.2]
    · rename_i e ht
      intro hn
      rw [hn] at ht
      cases ht

theorem EventsPresenter.handleModelEvent_newWaypointPresenter (U : Utils) (u : UpdateType)
    (w : Option Waypoint) (s : EventsPresenter) :
    (EventsPresenter.handleModelEvent U u w s).state.newWaypointPresenter
      = s.newWaypointPresenter := by
  cases u with
  | PATCH =>
    simp only [EventsPresenter.handleModelEvent, EventsPresenter.updateWaypointPresentersData]
    cases w with
    | none => rfl
    | some w =>
      dsimp only
      cases Map.get s.waypointPresenters w.id <;> rfl
  | MINOR =>
    exact (congrArg Prod.fst (EventsPresenter.renderEvents_kept U _)).trans
      (EventsPresenter.clearEvents_newWaypointPresenter s false)
  | MAJOR =>
    exact (congrArg Prod.fst (EventsPresenter.renderEvents_kept U _)).trans
      (EventsPresenter.clearEvents_newWaypointPresenter s true)
  | INIT =>
    exact congrArg Prod.fst (EventsPresenter.renderEvents_kept U
      ({ s with isLoading := false }.call (Call.remove (some Node.loading))))
  | ERROR =>
    exact (congrArg Prod.fst (EventsPresenter.renderEvents_kept U _)).trans
      (EventsPresenter.clearEvents_newWaypointPresenter { s with isError := true } false)

/-! ## Action dispatch -/

/-- An update or a delete dispatch stops at the call of the missing presenter method, with the
block engaged and nothing else done. -/
theorem EventsPresenter.handleViewAction_update (U : Utils) (u : UpdateType) (w : Waypoint)
    (r : EventsPresenter.StoreResult) (s : EventsPresenter) :
    (s.handleViewAction U UserAction.UPDATE_WAYPOINT u w r).thrown = some JsError.typeError ∧
      (s.handleViewAction U UserAction.UPDATE_WAYPOINT u w r).state = s.blockUi := by
  unfold EventsPresenter.handleViewAction EventsPresenter.handleViewActionBegin
    EventsPresenter.callOnPresenter
  dsimp only
  cases Map.get s.blockUi.waypointPresenters w.id <;> exact ⟨rfl, rfl⟩

/-- An add dispatch with a creation presenter present keeps the protocol: whether the store
operation resolves or rejects, the handler completes without throwing, its last collaborator
call is `unblock()`, and the block is released. -/
theorem EventsPresenter.handleViewAction_add (U : Utils) (u : UpdateType) (w : Waypoint)
    (r : EventsPresenter.StoreResult) (s : EventsPresenter) (np : NewWaypointPresenter)
    (hn : s.newWaypointPresenter = some np) :
    (s.handleViewAction U UserAction.ADD_WAYPOINT u w r).thrown = none ∧
      (s.handleViewAction U UserAction.ADD_WAYPOINT u w r).state.uiBlocker = false ∧
      (s.handleViewAction U UserAction.ADD_WAYPOINT u w r).state.world.log.getLast?
        = some Call.unblock := by
  have hb : s.handleViewActionBegin UserAction.ADD_WAYPOINT u w
      = ⟨({ s.blockUi with
          newWaypointPresenter := some { np with pending := some PendingActionState.Saving } }).call
            (Call.addWaypoint u w), none⟩ := by
    have h1 : s.blockUi.newWaypointPresenter = some np := hn
    simp only [EventsPresenter.handleViewActionBegin, EventsPresenter.markNewWaypointPresenter,
      h1, EventsPresenter.done, Outcome.andThen]
  have hu : ∀ t : EventsPresenter, t.unblockUi.uiBlocker = false ∧
      t.unblockUi.world.log.getLast? = some Call.unblock := by
    intro t
    refine ⟨rfl, ?_⟩
    simp [EventsPresenter.unblockUi, EventsPresenter.call, World.call]
  unfold EventsPresenter.handleViewAction
  rw [hb]
  simp only [Outcome.andThen]
  generalize hs1 : ({ s.blockUi with
    newWaypointPresenter := some { np with pending := some PendingActionState.Saving } }).call
      (Call.addWaypoint u w) = s1
  have h1 : s1.newWaypointPresenter
      = some { np with pending := some PendingActionState.Saving } := by
    rw [← hs1]; rfl
  have h2 : (EventsPresenter.storeSettle U u w r s1).state.newWaypointPresenter
      = some { np with pending := some PendingActionState.Saving } := by
    cases r with
    | rejected => exact h1
    | resolved tripModel =>
      exact (EventsPresenter.handleModelEvent_newWaypointPresenter U u (some w) _).trans h1
  generalize EventsPresenter.storeSettle U u w r s1 = o at h2
  unfold EventsPresenter.handleViewActionResume
  simp only [h2, EventsPresenter.markNewWaypointPresenter, EventsPresenter.done]
  cases o.thrown <;> simp only [Outcome.andThen] <;> exact ⟨trivial, hu _⟩

/-- C3, at the failing input. An update dispatch for the waypoint of a presenter that exists:
whether the store operation would resolve or reject, the handler throws a `TypeError` at
`setSaving()`, which `WaypointPresenter` does not declare; the only collaborator call it has
made is `block()`, so `unblock()` is never called, the block stays engaged and no store
operation is invoked. -/
theorem update_dispatch_never_unblocks :
    Map.get demoLoaded.waypointPresenters 10 ≠ none ∧
    (demoLoaded.handleViewAction demoUtils UserAction.UPDATE_WAYPOINT UpdateType.PATCH
      (demoPoint 10 1 5 100) (EventsPresenter.StoreResult.resolved demoModel)).thrown
        = some JsError.typeError ∧
    (demoLoaded.handleViewAction demoUtils UserAction.UPDATE_WAYPOINT UpdateType.PATCH
      (demoPoint 10 1 5 100) (EventsPresenter.StoreResult.resolved demoModel)).state.uiBlocker
        = true ∧
    callsSince demoLoaded (demoLoaded.handleViewAction demoUtils UserAction.UPDATE_WAYPOINT
      UpdateType.PATCH (demoPoint 10 1 5 100)
      (EventsPresenter.StoreResult.resolved demoModel)).state = [Call.block] ∧
    (demoLoaded.handleViewAction demoUtils UserAction.UPDATE_WAYPOINT UpdateType.PATCH
      (demoPoint 10 1 5 100) EventsPresenter.StoreResult.rejected).thrown
        = some JsError.typeError ∧
    callsSince demoLoaded (demoLoaded.handleViewAction demoUtils UserAction.UPDATE_WAYPOINT
      UpdateType.PATCH (demoPoint 10 1 5 100)
      EventsPresenter.StoreResult.rejected).state = [Call.block] := by
  decide

/-! ## Favorite toggle -/

/-- A presenter built by `#renderWaypoint` holds no `#updateWaypointsData` callback: the
coordinator passes its dispatch under the name `handleWaypointsDataUpdate`, which the
constructor does not read. -/
theorem renderWaypoint_updateWaypointsData (uid : Nat) :
    (WaypointPresenter.create uid renderWaypointOptions).updateWaypointsData = none := rfl

/-- C4, at the failing input. A favorite click on a presenter that the coordinator has built
and initialised: the callback field is `undefined`, the click throws a `TypeError`, the
coordinator's dispatch is not entered (no call is made: no block, no store operation), and the
presenter's stored point is unchanged. -/
theorem favorite_click_throws :
    (Map.get demoLoaded.waypointPresenters 10).map (fun p => (p.point, p.updateWaypointsData))
      = some (some (demoPoint 10 1 5 100), none) ∧
    (demoLoaded.onFavoriteClick demoUtils 10).thrown = some JsError.typeError ∧
    callsSince demoLoaded (demoLoaded.onFavoriteClick demoUtils 10).state = [] ∧
    (Map.get (demoLoaded.onFavoriteClick demoUtils 10).state.waypointPresenters 10).map
      (fun p => p.point) = some (some (demoPoint 10 1 5 100)) := by
  decide

/-! ## The creation flow -/

/-- C5, at the failing input. The coordinator has a creation flow open and sorts by price. A
`MAJOR` notification resets the sort to `DAY` and rebuilds the item presenters (new identities,
default mode), but the creation presenter is still live afterwards: its form is not removed,
and the creation button is enabled. -/
theorem major_keeps_creation_flow :
    (run demoUtils demoCreating [Event.applySort SortType.PRICE]).currentSort = SortType.PRICE ∧
    (run demoUtils demoCreating [Event.applySort SortType.PRICE]).newWaypointPresenter
      = some { active := true, pending := none } ∧
    (run demoUtils demoCreating [Event.applySort SortType.PRICE,
      Event.notify UpdateType.MAJOR none demoModel FilterType.EVERYTHING]).currentSort
      = SortType.DAY ∧
    (run demoUtils demoCreating [Event.applySort SortType.PRICE,
      Event.notify UpdateType.MAJOR none demoModel FilterType.EVERYTHING]).waypointPresenters.map
        (fun e => (e.1, e.2.uid, e.2.mode))
      = [(10, 6, Mode.DEFAULT), (20, 7, Mode.DEFAULT)] ∧
    (run demoUtils demoCreating [Event.applySort SortType.PRICE,
      Event.notify UpdateType.MAJOR none demoModel FilterType.EVERYTHING]).newWaypointPresenter
      = some { active := true, pending := none } ∧
    Call.remove (some Node.newWaypointForm) ∉
      (run demoUtils demoCreating [Event.applySort SortType.PRICE,
        Event.notify UpdateType.MAJOR none demoModel FilterType.EVERYTHING]).world.log ∧
    (run demoUtils demoCreating [Event.applySort SortType.PRICE,
      Event.notify UpdateType.MAJOR none demoModel FilterType.EVERYTHING]).NewWaypointButtonMode
      = NewWaypointButtonMode.ENABLED := by
  decide

/-- C7, at the failing input. After a click on the creation button the flow is open and the
button disabled; a `MINOR` notification, or a change of sort, then leaves the flow open and
enables the button. -/
theorem button_enabled_during_creation :
    demoCreating.newWaypointPresenter = some { active := true, pending := none } ∧
    demoCreating.NewWaypointButtonMode = NewWaypointButtonMode.DISABLED ∧
    (run demoUtils demoCreating
      [Event.notify UpdateType.MINOR none demoModel FilterType.EVERYTHING]).newWaypointPresenter
      = some { active := true, pending := none } ∧
    (run demoUtils demoCreating
      [Event.notify UpdateType.MINOR none demoModel FilterType.EVERYTHING]).NewWaypointButtonMode
      = NewWaypointButtonMode.ENABLED ∧
    (run demoUtils demoCreating
      [Event.notify UpdateType.MINOR none demoModel
        FilterType.EVERYTHING]).newWaypointButtonComponent
      = some NewWaypointButtonMode.ENABLED ∧
    (run demoUtils demoLoaded [Event.newWaypointButtonClick,
      Event.applySort SortType.TIME]).newWaypointPresenter
      = some { active := true, pending := none } ∧
    (run demoUtils demoLoaded [Event.newWaypointButtonClick,
      Event.applySort SortType.TIME]).NewWaypointButtonMode
      = NewWaypointButtonMode.ENABLED := by
  decide

/-! ## The trip summary -/

/-- C8, at the failing input. Two runs over the same store of two waypoints, differing only in
the active filter: under `EVERYTHING` the load renders the trip summary of the whole
collection; under `FAVORITES`, which selects no waypoint of this store, the phase is not
loading and not error, and no trip summary is rendered at all. -/
theorem trip_summary_depends_on_filter :
    demoModel.waypoints.length = 2 ∧
    (run demoUtils (EventsPresenter.create demoModel FilterType.EVERYTHING)
      [Event.init, Event.notify UpdateType.INIT none demoModel
        FilterType.EVERYTHING]).world.log.filter Call.rendersTripInfo
      = [Call.render (some (Node.tripInfo ⟨["Amsterdam", "Geneva"], 3, 150⟩))] ∧
    (run demoUtils (EventsPresenter.create demoModel FilterType.FAVORITES)
      [Event.init, Event.notify UpdateType.INIT none demoModel
        FilterType.FAVORITES]).world.log.filter Call.rendersTripInfo = [] ∧
    (run demoUtils (EventsPresenter.create demoModel FilterType.FAVORITES)
      [Event.init, Event.notify UpdateType.INIT none demoModel
        FilterType.FAVORITES]).isLoading = false ∧
    (run demoUtils (EventsPresenter.create demoModel FilterType.FAVORITES)
      [Event.init, Event.notify UpdateType.INIT none demoModel
        FilterType.FAVORITES]).isError = false := by
  decide

/-! ## Dispatch while the block is engaged -/

/-- C9, refuted as stated. While a first add dispatch awaits the store (block engaged, not yet
released), a second invocation of the dispatch is not rejected: it completes its synchronous
part normally and calls the store operation `addWaypoint` a second time. -/
theorem second_dispatch_not_rejected :
    demoAwaiting.uiBlocker = true ∧
    (callsSince demoCreating demoAwaiting).filter Call.isStoreOperation
      = [Call.addWaypoint UpdateType.MINOR (demoPoint 30 1 9 70)] ∧
    Call.unblock ∉ callsSince demoCreating demoAwaiting ∧
    (demoAwaiting.handleViewActionBegin UserAction.ADD_WAYPOINT UpdateType.MINOR
      (demoPoint 31 2 9 80)).thrown = none ∧
    (callsSince demoAwaiting (demoAwaiting.handleViewActionBegin UserAction.ADD_WAYPOINT
      UpdateType.MINOR (demoPoint 31 2 9 80)).state).filter Call.isStoreOperation
      = [Call.addWaypoint UpdateType.MINOR (demoPoint 31 2 9 80)] := by
  decide

/-- C9, amended. The dispatch has no guard on the block: the synchronous part of
`#handleViewAction` is the same whether or not the block is engaged when it is invoked, for
every action type. In particular a second invocation with `ADD_WAYPOINT`, made while the block
is engaged and a creation presenter exists, proceeds as a first one does: it calls `block()`
again, marks the creation presenter as saving and calls `addWaypoint`, without throwing, and
the block stays engaged. -/
theorem dispatch_ignores_block (a : UserAction) (u : UpdateType) (w : Waypoint)
    (s : EventsPresenter) (np : NewWaypointPresenter) (hb : s.uiBlocker = true)
    (hn : s.newWaypointPresenter = some np) :
    (∀ b : Bool, EventsPresenter.handleViewActionBegin a u w { s with uiBlocker := b }
      = EventsPresenter.handleViewActionBegin a u w s) ∧
    (s.handleViewActionBegin UserAction.ADD_WAYPOINT u w).thrown = none ∧
    (s.handleViewActionBegin UserAction.ADD_WAYPOINT u w).state.world.log
      = s.world.log ++ [Call.block, Call.addWaypoint u w] ∧
    (s.handleViewActionBegin UserAction.ADD_WAYPOINT u w).state.newWaypointPresenter
      = some { np with pending := some PendingActionState.Saving } ∧
    (s.handleViewActionBegin UserAction.ADD_WAYPOINT u w).state.uiBlocker = s.uiBlocker := by
  refine ⟨fun b => rfl, ?_⟩
  have ho : s.handleViewActionBegin UserAction.ADD_WAYPOINT u w
      = ⟨({ s.blockUi with
          newWaypointPresenter := some { np with pending := some PendingActionState.Saving } }).call
            (Call.addWaypoint u w), none⟩ := by
    have h1 : s.blockUi.newWaypointPresenter = some np := hn
    simp only [EventsPresenter.handleViewActionBegin, EventsPresenter.markNewWaypointPresenter,
      h1, EventsPresenter.done, Outcome.andThen]
  rw [ho]
  refine ⟨rfl, ?_, rfl, hb.symm⟩
  simp [EventsPresenter.call, EventsPresenter.blockUi, World.call]

/-- C9, amended, at the concrete coordinator that awaits a first add dispatch. -/
theorem dispatch_ignores_block_witness :
    demoAwaiting.uiBlocker = true ∧
    (demoAwaiting.handleViewActionBegin UserAction.ADD_WAYPOINT UpdateType.MINOR
      (demoPoint 31 2 9 80)).state.world.log
      = demoAwaiting.world.log
        ++ [Call.block, Call.addWaypoint UpdateType.MINOR (demoPoint 31 2 9 80)] :=
  ⟨by decide,
    (dispatch_ignores_block UserAction.ADD_WAYPOINT UpdateType.MINOR (demoPoint 31 2 9 80)
      demoAwaiting { active := true, pending := some PendingActionState.Saving }
      (by decide) (by decide)).2.2.1⟩

/-! ## The cancellation listener -/

/-- Leaving edit mode through `#replaceFormToPoint` (Escape, form submission, forced reset)
uninstalls the presenter's keydown listener. -/
theorem WaypointPresenter.replaceFormToPoint_listener (p : WaypointPresenter) (w : World) :
    p.uid ∉ (p.replaceFormToPoint w).2.keydownListeners := by
  simp [WaypointPresenter.replaceFormToPoint, World.removeEventListener, World.call]

/-- The three exits through `#replaceFormToPoint` release the listener: Escape. -/
theorem WaypointPresenter.onEscKeydown_listener (p : WaypointPresenter) (w : World) :
    p.uid ∉ (p.onEscKeydown true w).2.keydownListeners :=
  WaypointPresenter.replaceFormToPoint_listener p w

/-- The three exits through `#replaceFormToPoint` release the listener: form submission. -/
theorem WaypointPresenter.onFormSubmit_listener (p : WaypointPresenter) (w : World) :
    p.uid ∉ (p.onFormSubmit w).2.keydownListeners := by
  simp [WaypointPresenter.onFormSubmit, WaypointPresenter.replaceFormToPoint,
    World.removeEventListener, World.call]

/-- The three exits through `#replaceFormToPoint` release the listener: the forced reset of
an editing presenter. -/
theorem WaypointPresenter.resetToDefaultWaypoint_listener (p : WaypointPresenter) (w : World)
    (h : p.mode = Mode.EDITING) : p.uid ∉ (p.resetToDefaultWaypoint w).2.keydownListeners := by
  unfold WaypointPresenter.resetToDefaultWaypoint
  rw [if_pos h]
  exact WaypointPresenter.replaceFormToPoint_listener p w

/-- For every presenter and world: `destroy()` leaves the keydown listeners as they are. -/
theorem WaypointPresenter.destroy_listeners (p : WaypointPresenter) (w : World) :
    (p.destroy w).2.keydownListeners = w.keydownListeners := rfl

/-- C10, at the failing input. A presenter in `EDITING` mode with its keydown listener
installed: after `destroy()` the listener is still installed on the document. The same holds
when the coordinator destroys the presenter on a `MINOR` notification: the listener of the
destroyed presenter stays installed although the presenter has left the map. -/
theorem destroy_keeps_listener :
    (Map.get demoEditing.waypointPresenters 10).map (fun p => (p.uid, p.mode))
      = some (0, Mode.EDITING) ∧
    demoEditing.world.keydownListeners = [0] ∧
    (Map.get demoEditing.waypointPresenters 10).map
      (fun p => (p.destroy demoEditing.world).2.keydownListeners) = some [0] ∧
    (run demoUtils demoEditing
      [Event.notify UpdateType.MINOR none demoModel FilterType.EVERYTHING]).world.keydownListeners
      = [0] ∧
    (run demoUtils demoEditing
      [Event.notify UpdateType.MINOR none demoModel
        FilterType.EVERYTHING]).waypointPresenters.map (fun e => e.2.uid) = [2, 3] := by
  decide

end BigTrip
